import Mathlib

/-!
Verification of the reconciliation engine of the ChatBotNMIT repository
(src/app/utils.py, src/app/orchestrator.py, src/app/referee.py,
src/app/models.py, src/app/config.py).

Python floats are modelled as exact rationals, Python strings as Lean
strings whose character-level operations (strip / lower / upper /
split-before-first-dot / substring) are embedded explicitly over lists of
characters.  The external collaborators (the LLM generator agent, the two
n8n solver webhooks, the controller solver agent and the AutoGen group
chat) are modelled as oracle functions supplied to the orchestrator; the
orchestrator's own control flow, the consensus checker, the option
reconciler, the derivation composer and the referee-decision extraction
are embedded from the source.
-/

/-- ASCII whitespace test used by Python str.strip (space and the
control characters 9 to 13). -/
def isPySpace (c : Char) : Bool := c.toNat = 32 || (9 ≤ c.toNat && c.toNat ≤ 13)

/-- Model of Python str.strip on a list of characters: remove leading and
trailing whitespace. -/
def stripList (cs : List Char) : List Char :=
  ((cs.dropWhile isPySpace).reverse.dropWhile isPySpace).reverse

/-- Model of Python str.strip. -/
def pyStrip (s : String) : String := ⟨stripList s.data⟩

/-- Model of Python str.lower on one character (ASCII range; the source
only manipulates option labels and unit strings). -/
def pyCharLower (c : Char) : Char :=
  if 65 ≤ c.toNat ∧ c.toNat ≤ 90 then Char.ofNat (c.toNat + 32) else c

/-- Model of Python str.upper on one character (ASCII range). -/
def pyCharUpper (c : Char) : Char :=
  if 97 ≤ c.toNat ∧ c.toNat ≤ 122 then Char.ofNat (c.toNat - 32) else c

/-- str.lower on a list of characters. -/
def lowerList (cs : List Char) : List Char := cs.map pyCharLower

/-- str.upper on a list of characters. -/
def upperList (cs : List Char) : List Char := cs.map pyCharUpper

/-- Model of Python str.lower. -/
def pyLower (s : String) : String := ⟨lowerList s.data⟩

/-- Model of Python str.upper. -/
def pyUpper (s : String) : String := ⟨upperList s.data⟩

/-- Characters of a string before the first period: Python
opt.split(".", 1)[0]. -/
def beforeDotList (cs : List Char) : List Char := cs.takeWhile (fun c => !(c == '.'))

/-- The label prefix of an option as the option reconciler computes it:
opt.split(".", 1)[0].strip().upper() in src/app/utils.py. -/
def norm_label (s : String) : String := ⟨upperList (stripList (beforeDotList s.data))⟩

/-- Python `o or d` for an optional string, where None and the empty
string are falsy. -/
def pyOrStr (o : Option String) (d : String) : String :=
  match o with
  | none => d
  | some s => if s = "" then d else s

/-- Python truthiness of an optional string: present and non-empty. -/
def truthyOptStr (o : Option String) : Bool :=
  match o with
  | none => false
  | some s => decide (s ≠ "")

/-- Python str(x) for an optional string, where None prints as None
(used by f-string interpolation in the orchestrator). -/
def optStrOrNone (o : Option String) : String :=
  match o with
  | none => "None"
  | some s => s

/-- Decides whether sub occurs as a contiguous run inside the character
list (Python substring test sub in hay). -/
def subListAt (needle : List Char) : List Char → Bool
  | [] => needle.isEmpty
  | c :: rest => needle.isPrefixOf (c :: rest) || subListAt needle rest

/-- Python substring test sub in hay on strings. -/
def strContainsSub (hay sub : String) : Bool := subListAt sub.data hay.data

/-- models.py ValueWithUnit: a float value (modelled as an exact
rational) together with a unit string. -/
structure ValueWithUnit where
  value : ℚ
  unit : String
deriving DecidableEq

/-- The default absolute tolerance 1e-6 of utils.values_equal, written
as an explicit reduced fraction so that it evaluates inside the
kernel. -/
def TOL_DEFAULT : ℚ := ⟨1, 1000000, by decide, by decide⟩

/-- The numeric test abs(a - b) <= t of utils.values_equal, computed on
numerators and denominators so that it evaluates inside the kernel; the
theorem ratDiffAbsLe_iff below proves it equal to the textbook
formulation with the absolute value. -/
def ratDiffAbsLe (a b t : ℚ) : Bool :=
  decide (-t.num * ((a.den : Int) * (b.den : Int)) ≤
      (a.num * (b.den : Int) - b.num * (a.den : Int)) * (t.den : Int)) &&
    decide ((a.num * (b.den : Int) - b.num * (a.den : Int)) * (t.den : Int) ≤
      t.num * ((a.den : Int) * (b.den : Int)))

/-- utils.values_equal: unit strings equal after strip and lower, and
absolute numeric difference at most tol.  The Python default tol=1e-6 is
passed explicitly as TOL_DEFAULT at every call site of the source. -/
def values_equal (v1 v2 : ValueWithUnit) (tol : ℚ) : Bool :=
  if pyLower (pyStrip v1.unit) ≠ pyLower (pyStrip v2.unit) then false
  else ratDiffAbsLe v1.value v2.value tol

/-- utils.unit_matches: vacuously true when no unit is required (None or
empty string are falsy in Python), otherwise strip-lower equality. -/
def unit_matches (v : ValueWithUnit) (required_unit : Option String) : Bool :=
  match required_unit with
  | none => true
  | some u => if u = "" then true else decide (pyLower (pyStrip v.unit) = pyLower (pyStrip u))

/-- utils._format_value_with_unit builds the string value followed by a
space and the unit.  The Python %g float rendering is modelled as an
exact rendering of the rational (integer numerals when the denominator
is one); the development only depends on the rendering being a fixed
function of the value, shared between the reconciler and
option_contains_value, exactly as in the source. -/
def format_g (q : ℚ) : String :=
  if q.den = 1 then toString q.num else toString q.num ++ "/" ++ toString q.den

/-- utils._format_value_with_unit. -/
def format_value_with_unit (v : ValueWithUnit) : String :=
  format_g v.value ++ " " ++ v.unit

/-- One iteration of the option-rewriting loop of
utils.ensure_option_contains_answer: an option whose label prefix equals
the target letter is replaced by the canonical target text unless its
stripped text already equals it; every other option is copied
unchanged.  The Boolean accumulator is the replaced flag. -/
def reconcile_step (letter target_text : String) (acc : List String × Bool) (opt : String) :
    List String × Bool :=
  if norm_label opt = letter then
    if pyStrip opt = target_text then (acc.1 ++ [opt], acc.2)
    else (acc.1 ++ [target_text], true)
  else (acc.1 ++ [opt], acc.2)

/-- utils.ensure_option_contains_answer: guarantee one option explicitly
states the correct value and unit; returns (updated options, final
letter, changed flag). -/
def ensure_option_contains_answer (options : List String) (preferred_letter : Option String)
    (value : ValueWithUnit) : List String × String × Bool :=
  match options with
  | [] => (["A. " ++ format_value_with_unit value], "A", true)
  | _ :: _ =>
    let letter := pyUpper (pyStrip (pyOrStr preferred_letter "A"))
    let target_text := letter ++ ". " ++ format_value_with_unit value
    let ur := options.foldl (reconcile_step letter target_text) ([], false)
    if ¬ (options.any (fun opt => norm_label opt == letter)) then
      (ur.1.set 0 ("A. " ++ format_value_with_unit value), "A", true)
    else
      (ur.1, letter, ur.2)

/-- utils.option_contains_value: the lowered option text contains both
the formatted value and the stripped, lowered unit as substrings. -/
def option_contains_value (option_text : String) (value : ValueWithUnit) : Bool :=
  strContainsSub (pyLower option_text) (pyLower (format_g value.value)) &&
    strContainsSub (pyLower option_text) (pyLower (pyStrip value.unit))

/-- models.py MCQMeta. -/
structure MCQMeta where
  topic : Option String
  difficulty : Option String
  required_unit : Option String
  correct_option_internal : Option String
  correct_value : Option ValueWithUnit
deriving DecidableEq

/-- models.py MCQQuestion. -/
structure MCQQuestion where
  question_id : Option String
  question : String
  options : List String
  meta : MCQMeta
deriving DecidableEq

/-- models.py SolverResult (a Judgment). -/
structure SolverResult where
  solver_id : String
  question_id : Option String
  final_value : ValueWithUnit
  selected_option : Option String
  reasoning : String
  confidence : Option ℚ
deriving DecidableEq

/-- models.py GenerateRequest. -/
structure GenerateRequest where
  topic : String
  difficulty : String
  num_questions : Nat
  required_unit : String
deriving DecidableEq

/-- models.py FinalMCQ (the Final Artifact). -/
structure FinalMCQ where
  question : String
  options : List String
  answer : String
  answer_value : ValueWithUnit
  derivation : String
  topic : String
  difficulty : String
deriving DecidableEq

/-- The status literal of models.py RefereeDecision. -/
inductive RefStatus where
  | accepted
  | reject_and_regenerate
deriving DecidableEq

/-- models.py RefereeDecision. -/
structure RefereeDecision where
  status : RefStatus
  final_value : Option ValueWithUnit
  selected_option : Option String
  explanation : Option String
deriving DecidableEq

/-- orchestrator._is_perfect_match (the Consensus Checker): unit gate,
numeric gate, presence gate, label gate, evaluated in order with the
reason string of the first failed gate. -/
def is_perfect_match (mcq : MCQQuestion) (sol_a sol_b : SolverResult) : Bool × String :=
  match mcq.meta.correct_value with
  | none => (false, "Missing correct_value in meta.")
  | some correct =>
    if ¬ ((unit_matches sol_a.final_value mcq.meta.required_unit &&
           unit_matches sol_b.final_value mcq.meta.required_unit &&
           unit_matches correct mcq.meta.required_unit) = true) then
      (false, "Unit mismatch between solvers and/or correct value.")
    else if ¬ ((values_equal sol_a.final_value sol_b.final_value TOL_DEFAULT &&
                values_equal sol_a.final_value correct TOL_DEFAULT) = true) then
      (false, "Numeric mismatch between solvers and/or correct value.")
    else if ¬ ((truthyOptStr sol_a.selected_option && truthyOptStr sol_b.selected_option &&
                truthyOptStr mcq.meta.correct_option_internal) = true) then
      (false, "Missing selected_option or correct_option_internal.")
    else if ¬ (sol_a.selected_option = sol_b.selected_option ∧
               sol_b.selected_option = mcq.meta.correct_option_internal) then
      (false, "Option letter mismatch between solvers and meta.")
    else (true, "Perfect match.")

/-- utils.combine_derivation (the Derivation Composer): deterministic
concatenation, optional sections included only when present (Python
truthiness: a None or empty note is omitted). -/
def combine_derivation (mcq : MCQQuestion) (sol_a sol_b : SolverResult)
    (controller_result : Option SolverResult)
    (referee_explanation consensus_note options_note : Option String) : String :=
  String.intercalate "\n"
    (["Problem:\n" ++ mcq.question,
      "\nOptions:\n" ++ String.intercalate "\n" mcq.options,
      "\nSolver A reasoning:\n" ++ sol_a.reasoning,
      "\nSolver B reasoning:\n" ++ sol_b.reasoning]
     ++ (match controller_result with
         | some c => ["\nController solver reasoning:\n" ++ c.reasoning]
         | none => [])
     ++ (if truthyOptStr consensus_note then
           ["\nConsensus note:\n" ++ consensus_note.getD ""] else [])
     ++ (if truthyOptStr referee_explanation then
           ["\nReferee explanation:\n" ++ referee_explanation.getD ""] else [])
     ++ (if truthyOptStr options_note then
           ["\nOption adjustment:\n" ++ options_note.getD ""] else []))

/-- One message of the AutoGen group-chat transcript: the emitting
agent's name and the message content. -/
structure ChatMessage where
  name : String
  content : String
deriving DecidableEq

/-- The two failure modes of referee-decision extraction in
referee.run_referee_groupchat (both raised as RuntimeError in the
source). -/
inductive ArbitrationError where
  | noRefereeOutput
  | malformedDecision (content : String)
deriving DecidableEq

/-- The extraction step of referee.run_referee_groupchat: scan the
transcript backward for the most recent message named Referee, fail when
there is none or its content is falsy (empty), then parse the content as
a RefereeDecision; json.loads plus pydantic validation is abstracted as
the parseDecision oracle. -/
def extract_referee_decision (messages : List ChatMessage)
    (parseDecision : String → Option RefereeDecision) : Except ArbitrationError RefereeDecision :=
  match messages.reverse.find? (fun m => m.name == "Referee") with
  | none => .error .noRefereeOutput
  | some m =>
    if m.content = "" then .error .noRefereeOutput
    else
      match parseDecision m.content with
      | none => .error (.malformedDecision m.content)
      | some d => .ok d

/-- The external collaborators of orchestrator.run_generation_cycle,
modelled as oracles: the problem-generator agent (per attempt), the two
solver webhooks, the controller solver agent and the referee group chat.
An error value is the stringified exception. -/
structure CycleOracles where
  generate : Nat → Except String MCQQuestion
  solveA : MCQQuestion → Except String SolverResult
  solveB : MCQQuestion → Except String SolverResult
  controller : MCQQuestion → Except String SolverResult
  referee : MCQQuestion → SolverResult → SolverResult → Option SolverResult →
    Except String RefereeDecision

/-- The outcome of one iteration of the retry loop of
run_generation_cycle: return a FinalMCQ, abort the whole cycle (solver
call failure), or record an error and advance to the next attempt. -/
inductive AttemptOutcome where
  | success (artifact : FinalMCQ)
  | fatal (msg : String)
  | retry (msg : String)
deriving DecidableEq

/-- The body of the for-loop of orchestrator.run_generation_cycle for
one attempt. -/
def run_attempt (o : CycleOracles) (req : GenerateRequest) (attempt : Nat) : AttemptOutcome :=
  match o.generate attempt with
  | .error exc => .retry ("Generator error on attempt " ++ toString attempt ++ ": " ++ exc)
  | .ok mcq =>
    match o.solveA mcq with
    | .error exc => .fatal ("Error calling solvers: " ++ exc)
    | .ok sol_a =>
      match o.solveB mcq with
      | .error exc => .fatal ("Error calling solvers: " ++ exc)
      | .ok sol_b =>
        if (is_perfect_match mcq sol_a sol_b).1 then
          .success
            { question := mcq.question
              options := mcq.options
              answer := pyOrStr mcq.meta.correct_option_internal (pyOrStr sol_a.selected_option "")
              answer_value := mcq.meta.correct_value.getD sol_a.final_value
              derivation := combine_derivation mcq sol_a sol_b none none none none
              topic := pyOrStr mcq.meta.topic req.topic
              difficulty := pyOrStr mcq.meta.difficulty req.difficulty }
        else
          let controller_result : Option SolverResult :=
            match o.controller mcq with
            | .ok r => some r
            | .error _ => none
          match o.referee mcq sol_a sol_b controller_result with
          | .error exc =>
            .retry ("Referee group chat failed on attempt " ++ toString attempt ++ ": " ++ exc)
          | .ok decision =>
            match decision.status, decision.final_value with
            | .accepted, some fv =>
              if ¬ (unit_matches fv mcq.meta.required_unit = true) then
                .retry "Referee final value unit does not match required unit."
              else
                let r := ensure_option_contains_answer mcq.options decision.selected_option fv
                let options_note : Option String :=
                  if r.2.2 then
                    some ("Options were adjusted by the orchestrator so that one choice " ++
                      "contains the agreed correct numeric answer with the required unit.")
                  else none
                .success
                  { question := mcq.question
                    options := r.1
                    answer := r.2.1
                    answer_value := fv
                    derivation := combine_derivation mcq sol_a sol_b controller_result
                      decision.explanation
                      (some ("Final answer agreed by Solver A, Solver B, controller, " ++
                        "and Referee."))
                      options_note
                    topic := pyOrStr mcq.meta.topic req.topic
                    difficulty := pyOrStr mcq.meta.difficulty req.difficulty }
            | _, _ =>
              .retry ("Referee requested regeneration on attempt " ++ toString attempt ++ ": " ++
                optStrOrNone decision.explanation)

/-- The message of the terminal failure of run_generation_cycle (Python
prints None for an unset last_error). -/
def exhausted_message (max_retries : Nat) (last_error : Option String) : String :=
  "Failed to produce a valid MCQ after " ++ toString max_retries ++
    " attempts. Last error: " ++ optStrOrNone last_error

/-- The two RuntimeError exits of run_generation_cycle: the fatal
solver-call error raised inside the loop, and exhausted retries after
the loop. -/
inductive CycleError where
  | solverCall (msg : String)
  | exhaustedRetries (msg : String)
deriving DecidableEq

/-- The retry loop of orchestrator.run_generation_cycle: attempt counter,
remaining attempts, and the threaded last-error diagnostic. -/
def run_cycle_from (o : CycleOracles) (req : GenerateRequest) (max_retries : Nat) :
    Nat → Nat → Option String → Except CycleError FinalMCQ
  | _, 0, last_error => .error (.exhaustedRetries (exhausted_message max_retries last_error))
  | attempt, remaining + 1, _last_error =>
    match run_attempt o req attempt with
    | .success artifact => .ok artifact
    | .fatal msg => .error (.solverCall msg)
    | .retry msg => run_cycle_from o req max_retries (attempt + 1) remaining (some msg)

/-- config.MAX_RETRIES: int(os.getenv(..., "3")), default 3. -/
def MAX_RETRIES : Nat := 3

/-- orchestrator.run_generation_cycle with the configured default
MAX_RETRIES. -/
def run_generation_cycle (o : CycleOracles) (req : GenerateRequest) :
    Except CycleError FinalMCQ :=
  run_cycle_from o req MAX_RETRIES 1 MAX_RETRIES none

/-- True when an attempt returned a Final Artifact. -/
def isSuccessOutcome (a : AttemptOutcome) : Bool :=
  match a with
  | .success _ => true
  | _ => false

/-- True when the cycle returned a Final Artifact. -/
def isOkResult (r : Except CycleError FinalMCQ) : Bool :=
  match r with
  | .ok _ => true
  | .error _ => false

/-- The normalized target letter of ensure_option_contains_answer:
(preferred_letter or "A").strip().upper(). -/
def reconcile_letter (pref : Option String) : String := pyUpper (pyStrip (pyOrStr pref "A"))

/-- The canonical target text of ensure_option_contains_answer:
the normalized letter, a period and space, and the formatted value. -/
def reconcile_target (pref : Option String) (v : ValueWithUnit) : String :=
  reconcile_letter pref ++ ". " ++ format_value_with_unit v

/-- A concrete Candidate Item used by witnesses: four options, required
unit m/s, correct option B with value 11 m/s. -/
def mcqFix : MCQQuestion :=
  ⟨none, "What speed?", ["A. 10 m/s", "B. 11 m/s", "C. 12 m/s", "D. 13 m/s"],
    ⟨some "kinematics", some "medium", some "m/s", some "B", some ⟨11, "m/s"⟩⟩⟩

/-- A concrete Judgment of Solver A agreeing with the metadata. -/
def solAFix : SolverResult := ⟨"A", none, ⟨11, "m/s"⟩, some "B", "reasoning a", none⟩

/-- A concrete Judgment of Solver B disagreeing numerically, so that the
consensus check fails. -/
def solBFix : SolverResult := ⟨"B", none, ⟨12, "m/s"⟩, some "C", "reasoning b", none⟩

/-- A concrete accepted referee decision with the required unit. -/
def decFix : RefereeDecision := ⟨RefStatus.accepted, some ⟨11, "m/s"⟩, some "B", some "agreed"⟩

/-- A concrete rejected referee decision. -/
def decRejFix : RefereeDecision := ⟨RefStatus.reject_and_regenerate, none, none, some "bad item"⟩

/-- A concrete accepted referee decision in the wrong unit. -/
def decBadUnitFix : RefereeDecision :=
  ⟨RefStatus.accepted, some ⟨11, "km/h"⟩, some "B", some "agreed"⟩

/-- A concrete generation request used by witnesses. -/
def reqFix : GenerateRequest := ⟨"kinematics", "medium", 1, "m/s"⟩

/-- A family of concrete oracles: generation succeeds only on the first
attempt, the two solver calls succeed with the disagreeing fixtures, and
the controller and referee behave as supplied. -/
def oracleBase (ctl : Except String SolverResult) (ref : Except String RefereeDecision) :
    CycleOracles :=
  ⟨fun a => if a = 1 then .ok mcqFix else .error "generator offline",
    fun _ => .ok solAFix, fun _ => .ok solBFix, fun _ => ctl, fun _ _ _ _ => ref⟩

/-- Oracles whose first solver call fails. -/
def oFatal : CycleOracles :=
  ⟨fun _ => .ok mcqFix, fun _ => .error "solver A down", fun _ => .ok solAFix,
    fun _ => .ok solAFix, fun _ _ _ _ => .ok decFix⟩

/-- Oracles whose generator always fails. -/
def oGenErr : CycleOracles :=
  ⟨fun _ => .error "gen down", fun _ => .ok solAFix, fun _ => .ok solBFix,
    fun _ => .ok solAFix, fun _ _ _ _ => .ok decFix⟩

/-- Oracles whose referee group chat fails. -/
def oRefErr : CycleOracles := oracleBase (.ok solAFix) (.error "chat crashed")

/-- Oracles whose referee rejects and requests regeneration. -/
def oRej : CycleOracles := oracleBase (.ok solAFix) (.ok decRejFix)

/-- Oracles whose referee accepts with a wrong-unit value. -/
def oUnit : CycleOracles := oracleBase (.ok solAFix) (.ok decBadUnitFix)

/-- Oracles whose controller solver fails while the referee accepts. -/
def oCtl : CycleOracles := oracleBase (.error "controller down") (.ok decFix)

/-- Oracles whose controller solver and referee both succeed, the
referee accepting with the required unit. -/
def oAccept : CycleOracles := oracleBase (.ok solAFix) (.ok decFix)

/-! ### Numeric bridge: the kernel-computable comparison equals abs-le -/

theorem ratDiffAbsLe_iff (a b t : ℚ) : ratDiffAbsLe a b t = true ↔ |a - b| ≤ t := by
  have ha : (0:ℚ) < (a.den : ℚ) := by exact_mod_cast a.den_pos
  have hb : (0:ℚ) < (b.den : ℚ) := by exact_mod_cast b.den_pos
  have ht : (0:ℚ) < (t.den : ℚ) := by exact_mod_cast t.den_pos
  have hd : (0:ℚ) < (((a.den : Int) * (b.den : Int) : Int) : ℚ) := by
    push_cast
    exact mul_pos ha hb
  have hsub : a - b = ((a.num * (b.den : Int) - b.num * (a.den : Int) : Int) : ℚ) /
      (((a.den : Int) * (b.den : Int) : Int) : ℚ) := by
    push_cast
    conv_lhs => rw [← Rat.num_div_den a, ← Rat.num_div_den b]
    rw [div_sub_div _ _ (ne_of_gt ha) (ne_of_gt hb)]
    congr 1
    ring
  have h1 : (-t ≤ a - b) ↔
      (-t.num * ((a.den : Int) * (b.den : Int)) ≤
        (a.num * (b.den : Int) - b.num * (a.den : Int)) * (t.den : Int)) := by
    rw [hsub]
    conv_lhs => rw [show t = ((t.num : ℚ)) / ((t.den : ℚ)) from (Rat.num_div_den t).symm]
    rw [← neg_div, div_le_div_iff₀ ht hd]
    constructor <;> intro h <;> exact_mod_cast h
  have h2 : (a - b ≤ t) ↔
      ((a.num * (b.den : Int) - b.num * (a.den : Int)) * (t.den : Int) ≤
        t.num * ((a.den : Int) * (b.den : Int))) := by
    rw [hsub]
    conv_lhs => rw [show t = ((t.num : ℚ)) / ((t.den : ℚ)) from (Rat.num_div_den t).symm]
    rw [div_le_div_iff₀ hd ht]
    constructor <;> intro h <;> exact_mod_cast h
  rw [abs_le]
  unfold ratDiffAbsLe
  rw [Bool.and_eq_true, decide_eq_true_eq, decide_eq_true_eq, ← h1, ← h2]

theorem TOL_DEFAULT_eq : TOL_DEFAULT = 1 / 1000000 := by
  rw [← Rat.num_div_den TOL_DEFAULT]
  norm_num [TOL_DEFAULT]

/-! ### Character-level facts about the embedded str.upper -/

theorem toNat_pyCharUpper (c : Char) :
    (pyCharUpper c).toNat =
      if 97 ≤ c.toNat ∧ c.toNat ≤ 122 then c.toNat - 32 else c.toNat := by
  unfold pyCharUpper
  split
  · rename_i h
    unfold Char.ofNat
    rw [dif_pos (Or.inl (by omega : c.toNat - 32 < 55296))]
    simp [Char.ofNatAux, Char.toNat, UInt32.toNat, UInt32.ofNat']
    try omega
  · rfl

theorem pyCharUpper_of_not_lower (c : Char) (h : ¬ (97 ≤ c.toNat ∧ c.toNat ≤ 122)) :
    pyCharUpper c = c := by
  unfold pyCharUpper
  rw [if_neg h]

theorem pyCharUpper_eq_dot (c : Char) (h : pyCharUpper c = '.') : c = '.' := by
  by_cases hc : 97 ≤ c.toNat ∧ c.toNat ≤ 122
  · exfalso
    have h46 : (pyCharUpper c).toNat = 46 := by rw [h]; decide
    rw [toNat_pyCharUpper, if_pos hc] at h46
    omega
  · rw [pyCharUpper_of_not_lower c hc] at h
    exact h

theorem isPySpace_pyCharUpper (c : Char) : isPySpace (pyCharUpper c) = isPySpace c := by
  by_cases hc : 97 ≤ c.toNat ∧ c.toNat ≤ 122
  · have h1 : (pyCharUpper c).toNat = c.toNat - 32 := by rw [toNat_pyCharUpper, if_pos hc]
    have l : isPySpace (pyCharUpper c) = false := by
      unfold isPySpace
      rw [h1]
      simp only [Bool.or_eq_false_iff, Bool.and_eq_false_iff, decide_eq_false_iff_not]
      omega
    have r : isPySpace c = false := by
      unfold isPySpace
      simp only [Bool.or_eq_false_iff, Bool.and_eq_false_iff, decide_eq_false_iff_not]
      omega
    rw [l, r]
  · rw [pyCharUpper_of_not_lower c hc]

theorem pyCharUpper_idem (c : Char) : pyCharUpper (pyCharUpper c) = pyCharUpper c := by
  by_cases hc : 97 ≤ c.toNat ∧ c.toNat ≤ 122
  · have h1 : (pyCharUpper c).toNat = c.toNat - 32 := by rw [toNat_pyCharUpper, if_pos hc]
    exact pyCharUpper_of_not_lower _ (by rw [h1]; omega)
  · rw [pyCharUpper_of_not_lower c hc, pyCharUpper_of_not_lower c hc]

/-! ### List-level facts about dropWhile, takeWhile and stripList -/

theorem dropWhile_exists_prepend {α : Type} (p : α → Bool) (l : List α) :
    ∃ t, l = t ++ l.dropWhile p := by
  induction l with
  | nil => exact ⟨[], rfl⟩
  | cons a r ih =>
    by_cases h : p a
    · obtain ⟨t, ht⟩ := ih
      refine ⟨a :: t, ?_⟩
      rw [List.dropWhile_cons, if_pos h]
      simpa using ht
    · refine ⟨[], ?_⟩
      rw [List.dropWhile_cons, if_neg h]
      rfl

theorem dropWhile_idem {α : Type} (p : α → Bool) (l : List α) :
    (l.dropWhile p).dropWhile p = l.dropWhile p := by
  induction l with
  | nil => rfl
  | cons a r ih =>
    by_cases h : p a
    · rw [List.dropWhile_cons, if_pos h]
      exact ih
    · rw [List.dropWhile_cons, if_neg h, List.dropWhile_cons, if_neg h]

theorem dropWhile_length_le {α : Type} (p : α → Bool) (l : List α) :
    (l.dropWhile p).length ≤ l.length := by
  induction l with
  | nil => exact Nat.le_refl 0
  | cons a r ih =>
    by_cases h : p a
    · rw [List.dropWhile_cons, if_pos h]
      exact Nat.le_succ_of_le ih
    · rw [List.dropWhile_cons, if_neg h]

theorem dropWhile_fix_head_false {α : Type} (p : α → Bool) (c : α) (r : List α)
    (h : (c :: r).dropWhile p = c :: r) : p c = false := by
  by_cases hc : p c
  · exfalso
    rw [List.dropWhile_cons, if_pos hc] at h
    have hlen := congrArg List.length h
    have hle : (r.dropWhile p).length ≤ r.length := dropWhile_length_le p r
    simp at hlen
    omega
  · simpa using hc

theorem dropWhile_cons_false {α : Type} (p : α → Bool) (c : α) (r : List α)
    (h : p c = false) : (c :: r).dropWhile p = c :: r := by
  rw [List.dropWhile_cons, if_neg (by simp [h])]

theorem stripList_decomp (cs : List Char) : ∃ a b, cs = a ++ stripList cs ++ b := by
  obtain ⟨t, ht⟩ := dropWhile_exists_prepend isPySpace cs
  obtain ⟨t2, ht2⟩ := dropWhile_exists_prepend isPySpace (cs.dropWhile isPySpace).reverse
  refine ⟨t, t2.reverse, ?_⟩
  have hd : cs.dropWhile isPySpace = stripList cs ++ t2.reverse := by
    unfold stripList
    calc cs.dropWhile isPySpace
        = ((cs.dropWhile isPySpace).reverse).reverse := by rw [List.reverse_reverse]
      _ = (t2 ++ ((cs.dropWhile isPySpace).reverse.dropWhile isPySpace)).reverse := by
          rw [← ht2]
      _ = ((cs.dropWhile isPySpace).reverse.dropWhile isPySpace).reverse ++ t2.reverse := by
          rw [List.reverse_append]
  conv_lhs => rw [ht]
  rw [hd, List.append_assoc]

theorem dropWhile_stripList_append (l : List Char) :
    ∃ u, l.dropWhile isPySpace = stripList l ++ u := by
  obtain ⟨t2, ht2⟩ := dropWhile_exists_prepend isPySpace (l.dropWhile isPySpace).reverse
  refine ⟨t2.reverse, ?_⟩
  unfold stripList
  calc l.dropWhile isPySpace
      = ((l.dropWhile isPySpace).reverse).reverse := by rw [List.reverse_reverse]
    _ = (t2 ++ ((l.dropWhile isPySpace).reverse.dropWhile isPySpace)).reverse := by rw [← ht2]
    _ = ((l.dropWhile isPySpace).reverse.dropWhile isPySpace).reverse ++ t2.reverse := by
        rw [List.reverse_append]

theorem stripList_front_fix (l : List Char) :
    (stripList l).dropWhile isPySpace = stripList l := by
  cases he : stripList l with
  | nil => rfl
  | cons c e' =>
    apply dropWhile_cons_false
    obtain ⟨u, hu⟩ := dropWhile_stripList_append l
    rw [he] at hu
    have hfix := dropWhile_idem isPySpace l
    rw [hu] at hfix
    exact dropWhile_fix_head_false isPySpace c (e' ++ u) hfix

theorem stripList_back_fix (l : List Char) :
    (stripList l).reverse.dropWhile isPySpace = (stripList l).reverse := by
  unfold stripList
  rw [List.reverse_reverse]
  exact dropWhile_idem _ _

theorem stripList_of_fixes (l : List Char) (hf : l.dropWhile isPySpace = l)
    (hb : l.reverse.dropWhile isPySpace = l.reverse) : stripList l = l := by
  unfold stripList
  rw [hf, hb, List.reverse_reverse]

theorem stripList_idem (l : List Char) : stripList (stripList l) = stripList l :=
  stripList_of_fixes _ (stripList_front_fix l) (stripList_back_fix l)

theorem stripList_fix_parts (l : List Char) (h : stripList l = l) :
    l.dropWhile isPySpace = l ∧ l.reverse.dropWhile isPySpace = l.reverse := by
  constructor
  · rw [← h]
    exact stripList_front_fix l
  · rw [← h]
    exact stripList_back_fix l

theorem dropWhile_map_pres {f : Char → Char} (hp : ∀ c, isPySpace (f c) = isPySpace c)
    (l : List Char) : (l.map f).dropWhile isPySpace = (l.dropWhile isPySpace).map f := by
  rw [List.dropWhile_map, show (isPySpace ∘ f) = isPySpace from funext hp]

theorem stripList_upperList (l : List Char) :
    stripList (upperList l) = upperList (stripList l) := by
  unfold stripList upperList
  rw [dropWhile_map_pres isPySpace_pyCharUpper, ← List.map_reverse,
    dropWhile_map_pres isPySpace_pyCharUpper, ← List.map_reverse]

theorem upperList_idem (l : List Char) : upperList (upperList l) = upperList l := by
  unfold upperList
  rw [List.map_map]
  exact List.map_congr_left (fun c _ => pyCharUpper_idem c)

theorem subListAt_nil_needle (l : List Char) : subListAt [] l = true := by
  cases l with
  | nil => rfl
  | cons a r => simp [subListAt, List.isPrefixOf]

theorem isPrefixOf_append_self (n post : List Char) : n.isPrefixOf (n ++ post) = true := by
  induction n with
  | nil =>
    rw [List.nil_append]
    cases post <;> rfl
  | cons a r ih => simp [List.isPrefixOf, ih]

theorem subListAt_of_append (n pre post : List Char) :
    subListAt n (pre ++ n ++ post) = true := by
  induction pre with
  | nil =>
    rw [List.nil_append]
    cases n with
    | nil => exact subListAt_nil_needle _
    | cons a as =>
      rw [List.cons_append]
      have hp := isPrefixOf_append_self (a :: as) post
      rw [List.cons_append] at hp
      simp only [subListAt, hp, Bool.true_or]
  | cons a pre' ih =>
    rw [List.cons_append, List.cons_append]
    simp only [subListAt, Bool.or_eq_true]
    right
    exact ih

theorem takeWhile_append_not (p : Char → Bool) (l : List Char) (x : Char) (r : List Char)
    (hl : ∀ c ∈ l, p c = true) (hx : p x = false) :
    (l ++ x :: r).takeWhile p = l := by
  induction l with
  | nil => simp [List.takeWhile_cons, hx]
  | cons a l' ih =>
    have ha : p a = true := hl a (List.mem_cons_self a l')
    rw [List.cons_append, List.takeWhile_cons, if_pos ha,
      ih (fun c hc => hl c (List.mem_cons_of_mem a hc))]

theorem mem_stripList (l : List Char) (c : Char) (hc : c ∈ stripList l) : c ∈ l := by
  obtain ⟨a, b, hab⟩ := stripList_decomp l
  rw [hab]
  simp only [List.mem_append]
  exact Or.inl (Or.inr hc)

theorem norm_label_no_dot (s : String) : ∀ c ∈ (norm_label s).data, ¬ c = '.' := by
  intro c hc hdot
  subst hdot
  have hc2 : ('.' : Char) ∈ upperList (stripList (beforeDotList s.data)) := hc
  obtain ⟨c', hc', he⟩ := List.mem_map.mp hc2
  have : c' = '.' := pyCharUpper_eq_dot c' he
  subst this
  have hmem : ('.' : Char) ∈ beforeDotList s.data := mem_stripList _ _ hc'
  have := List.mem_takeWhile_imp hmem
  simp at this

theorem pyStrip_pyUpper_pyStrip (z : String) :
    pyStrip (pyUpper (pyStrip z)) = pyUpper (pyStrip z) := by
  unfold pyStrip pyUpper
  have : stripList (upperList (stripList z.data)) = upperList (stripList z.data) := by
    rw [stripList_upperList, stripList_idem]
  simp only [this]

theorem pyUpper_pyUpper_pyStrip (z : String) :
    pyUpper (pyUpper (pyStrip z)) = pyUpper (pyStrip z) := by
  unfold pyStrip pyUpper
  simp only [upperList_idem]

/-! ### Characterization of the option reconciler -/

theorem foldl_reconcile_step (letter target : String) (opts : List String)
    (acc : List String × Bool) :
    opts.foldl (reconcile_step letter target) acc =
      (acc.1 ++ opts.map (fun opt =>
          if norm_label opt = letter then (if pyStrip opt = target then opt else target)
          else opt),
        acc.2 || opts.any (fun opt =>
          decide (norm_label opt = letter) && !(pyStrip opt == target))) := by
  induction opts generalizing acc with
  | nil => simp
  | cons o rest ih =>
    rw [List.foldl_cons, ih]
    unfold reconcile_step
    by_cases h1 : norm_label o = letter
    · by_cases h2 : pyStrip o = target
      · simp [h1, h2]
      · simp [h1, h2]
    · simp [h1]

theorem ensure_matched (options : List String) (pref : Option String) (v : ValueWithUnit)
    (hne : options ≠ [])
    (hm : options.any (fun opt => norm_label opt == reconcile_letter pref) = true) :
    ensure_option_contains_answer options pref v =
      (options.map (fun opt =>
          if norm_label opt = reconcile_letter pref then
            (if pyStrip opt = reconcile_target pref v then opt else reconcile_target pref v)
          else opt),
        reconcile_letter pref,
        options.any (fun opt =>
          decide (norm_label opt = reconcile_letter pref) &&
            !(pyStrip opt == reconcile_target pref v))) := by
  cases options with
  | nil => exact absurd rfl hne
  | cons o0 rest =>
    simp only [reconcile_letter, reconcile_target] at hm ⊢
    show (let letter := pyUpper (pyStrip (pyOrStr pref "A"));
      let target_text := letter ++ ". " ++ format_value_with_unit v;
      let ur := (o0 :: rest).foldl (reconcile_step letter target_text) ([], false);
      if ¬ ((o0 :: rest).any (fun opt => norm_label opt == letter)) then
        (ur.1.set 0 ("A. " ++ format_value_with_unit v), "A", true)
      else (ur.1, letter, ur.2)) = _
    simp only []
    rw [foldl_reconcile_step]
    rw [if_neg (not_not_intro hm)]
    simp

theorem ensure_forced (options : List String) (pref : Option String) (v : ValueWithUnit)
    (hne : options ≠ [])
    (hm : options.any (fun opt => norm_label opt == reconcile_letter pref) = false) :
    ensure_option_contains_answer options pref v =
      (options.set 0 ("A. " ++ format_value_with_unit v), "A", true) := by
  cases options with
  | nil => exact absurd rfl hne
  | cons o0 rest =>
    show (let letter := pyUpper (pyStrip (pyOrStr pref "A"));
      let target_text := letter ++ ". " ++ format_value_with_unit v;
      let ur := (o0 :: rest).foldl (reconcile_step letter target_text) ([], false);
      if ¬ ((o0 :: rest).any (fun opt => norm_label opt == letter)) then
        (ur.1.set 0 ("A. " ++ format_value_with_unit v), "A", true)
      else (ur.1, letter, ur.2)) = _
    simp only []
    rw [foldl_reconcile_step]
    rw [if_pos (by rw [show (o0 :: rest).any (fun opt => norm_label opt == pyUpper (pyStrip (pyOrStr pref "A"))) = false from hm]; simp)]
    have hmap : (o0 :: rest).map (fun opt =>
        if norm_label opt = pyUpper (pyStrip (pyOrStr pref "A")) then
          (if pyStrip opt = pyUpper (pyStrip (pyOrStr pref "A")) ++ ". " ++ format_value_with_unit v
            then opt
            else pyUpper (pyStrip (pyOrStr pref "A")) ++ ". " ++ format_value_with_unit v)
        else opt) = o0 :: rest := by
      have hall := List.any_eq_false.mp hm
      have h1 : (o0 :: rest).map (fun opt =>
          if norm_label opt = pyUpper (pyStrip (pyOrStr pref "A")) then
            (if pyStrip opt = pyUpper (pyStrip (pyOrStr pref "A")) ++ ". " ++ format_value_with_unit v
              then opt
              else pyUpper (pyStrip (pyOrStr pref "A")) ++ ". " ++ format_value_with_unit v)
          else opt) = (o0 :: rest).map id :=
        List.map_congr_left (fun opt hopt => by
          rw [if_neg (by simpa [reconcile_letter] using hall opt hopt)]
          rfl)
      rw [h1, List.map_id]
    simp only [List.nil_append]
    rw [hmap]

theorem subListAt_of_middle (n hay pre post : List Char) (h : hay = pre ++ n ++ post) :
    subListAt n hay = true := by
  rw [h]
  exact subListAt_of_append n pre post

theorem isPrefixOf_exists (l1 l2 : List Char) (h : l1.isPrefixOf l2 = true) :
    ∃ t, l2 = l1 ++ t := by
  induction l1 generalizing l2 with
  | nil => exact ⟨l2, rfl⟩
  | cons a as ih =>
    cases l2 with
    | nil => simp [List.isPrefixOf] at h
    | cons b bs =>
      rw [show (a :: as).isPrefixOf (b :: bs) = ((a == b) && as.isPrefixOf bs) from rfl,
        Bool.and_eq_true] at h
      obtain ⟨hab, hrest⟩ := h
      obtain ⟨t, ht⟩ := ih bs hrest
      refine ⟨t, ?_⟩
      rw [List.cons_append, ← ht, show a = b from by simpa using hab]

theorem subListAt_exists (n l : List Char) (h : subListAt n l = true) :
    ∃ p q, l = p ++ n ++ q := by
  induction l with
  | nil =>
    refine ⟨[], [], ?_⟩
    unfold subListAt at h
    rw [List.isEmpty_iff] at h
    simp [h]
  | cons c rest ih =>
    unfold subListAt at h
    rw [Bool.or_eq_true] at h
    cases h with
    | inl hp =>
      obtain ⟨t, ht⟩ := isPrefixOf_exists _ _ hp
      exact ⟨[], t, by simpa using ht⟩
    | inr hs =>
      obtain ⟨p, q, hpq⟩ := ih hs
      exact ⟨c :: p, q, by simp [hpq]⟩

theorem subListAt_extend (n h' x y : List Char) (hsub : subListAt n h' = true) :
    subListAt n (x ++ h' ++ y) = true := by
  obtain ⟨p, q, hpq⟩ := subListAt_exists n h' hsub
  apply subListAt_of_middle n _ (x ++ p) (q ++ y)
  rw [hpq]
  simp [List.append_assoc]

theorem option_contains_target (L : String) (v : ValueWithUnit) :
    option_contains_value (L ++ ". " ++ format_value_with_unit v) v = true := by
  obtain ⟨a, b, hab⟩ := stripList_decomp v.unit.data
  unfold option_contains_value
  rw [Bool.and_eq_true]
  constructor
  · unfold strContainsSub pyLower
    apply subListAt_of_middle _ _ (lowerList (L.data ++ ['.', ' ']))
      (lowerList (' ' :: v.unit.data))
    show lowerList ((L ++ ". " ++ format_value_with_unit v).data) = _
    unfold format_value_with_unit lowerList
    simp only [String.data_append, show (". " : String).data = ['.', ' '] from rfl,
      show (" " : String).data = [' '] from rfl, List.map_append, List.append_assoc,
      List.cons_append, List.nil_append, List.map_cons, List.map_nil]
  · unfold strContainsSub pyLower pyStrip
    apply subListAt_of_middle _ _
      (lowerList (L.data ++ ['.', ' '] ++ (format_g v.value).data ++ [' '] ++ a))
      (lowerList b)
    show lowerList ((L ++ ". " ++ format_value_with_unit v).data) = _
    unfold format_value_with_unit lowerList
    conv_lhs => rw [String.data_append, String.data_append, String.data_append,
      String.data_append, hab]
    simp only [show (". " : String).data = ['.', ' '] from rfl,
      show (" " : String).data = [' '] from rfl, List.map_append, List.append_assoc,
      List.cons_append, List.nil_append, List.map_cons, List.map_nil]

theorem norm_label_target (L rest : String)
    (hdot : ∀ c ∈ L.data, ¬ c = '.') (hstrip : stripList L.data = L.data)
    (hupper : upperList L.data = L.data) :
    norm_label (L ++ ". " ++ rest) = L := by
  unfold norm_label
  have hdata : (L ++ ". " ++ rest).data = L.data ++ '.' :: (' ' :: rest.data) := by
    rw [String.data_append, String.data_append,
      show (". " : String).data = ['.', ' '] from rfl]
    simp [List.append_assoc]
  rw [hdata, show beforeDotList (L.data ++ '.' :: (' ' :: rest.data)) = L.data from by
    unfold beforeDotList
    exact takeWhile_append_not _ _ _ _ (fun c hc => by simp [hdot c hc]) (by simp)]
  rw [hstrip, hupper]

theorem option_contains_value_mono (opt T : String) (v : ValueWithUnit)
    (h : pyStrip opt = T) (hT : option_contains_value T v = true) :
    option_contains_value opt v = true := by
  have hdata : stripList opt.data = T.data := congrArg String.data h
  obtain ⟨a, b, hab⟩ := stripList_decomp opt.data
  rw [hdata] at hab
  unfold option_contains_value strContainsSub pyLower at hT ⊢
  rw [Bool.and_eq_true] at hT ⊢
  obtain ⟨h1, h2⟩ := hT
  have hlow : lowerList opt.data = lowerList a ++ lowerList T.data ++ lowerList b := by
    rw [hab]
    simp [lowerList, List.map_append]
  constructor
  · rw [hlow]
    exact subListAt_extend _ _ _ _ h1
  · rw [hlow]
    exact subListAt_extend _ _ _ _ h2

theorem reconcile_letter_strip_fix (pref : Option String) :
    pyStrip (reconcile_letter pref) = reconcile_letter pref := by
  unfold reconcile_letter
  exact pyStrip_pyUpper_pyStrip _

theorem reconcile_letter_upper_fix (pref : Option String) :
    pyUpper (reconcile_letter pref) = reconcile_letter pref := by
  unfold reconcile_letter
  exact pyUpper_pyUpper_pyStrip _

theorem norm_label_forced (rest : String) : norm_label ("A. " ++ rest) = "A" := by
  rw [show ("A. " : String) ++ rest = "A" ++ ". " ++ rest from rfl]
  exact norm_label_target "A" rest (by decide) (by decide) (by decide)

theorem option_contains_forced (v : ValueWithUnit) :
    option_contains_value ("A. " ++ format_value_with_unit v) v = true := by
  rw [show ("A. " : String) ++ format_value_with_unit v =
    "A" ++ ". " ++ format_value_with_unit v from rfl]
  exact option_contains_target "A" v

theorem ensure_contains_core (options : List String) (pref : Option String) (v : ValueWithUnit) :
    (ensure_option_contains_answer options pref v).1.length = max options.length 1 ∧
    ∃ opt ∈ (ensure_option_contains_answer options pref v).1,
      norm_label opt = (ensure_option_contains_answer options pref v).2.1 ∧
      option_contains_value opt v = true := by
  cases options with
  | nil =>
    refine ⟨rfl, "A. " ++ format_value_with_unit v, List.mem_singleton_self _, ?_, ?_⟩
    · exact norm_label_forced _
    · exact option_contains_forced v
  | cons o0 rest =>
    by_cases hm : ((o0 :: rest).any fun opt => norm_label opt == reconcile_letter pref) = true
    · rw [ensure_matched _ pref v (List.cons_ne_nil o0 rest) hm]
      constructor
      · simp only [List.length_map, List.length_cons]
        omega
      · obtain ⟨opt0, hin, hbeq⟩ := List.any_eq_true.mp hm
        have heq : norm_label opt0 = reconcile_letter pref := by simpa using hbeq
        by_cases h2 : pyStrip opt0 = reconcile_target pref v
        · refine ⟨opt0, ?_, heq, ?_⟩
          · have hf : (fun opt =>
                if norm_label opt = reconcile_letter pref then
                  (if pyStrip opt = reconcile_target pref v then opt else reconcile_target pref v)
                else opt) opt0 = opt0 := by
              simp only [if_pos heq, if_pos h2]
            have hmem := List.mem_map_of_mem (fun opt =>
                if norm_label opt = reconcile_letter pref then
                  (if pyStrip opt = reconcile_target pref v then opt else reconcile_target pref v)
                else opt) hin
            rw [hf] at hmem
            exact hmem
          · exact option_contains_value_mono opt0 _ v h2
              (by unfold reconcile_target; exact option_contains_target _ v)
        · refine ⟨reconcile_target pref v, ?_, ?_, ?_⟩
          · have hf : (fun opt =>
                if norm_label opt = reconcile_letter pref then
                  (if pyStrip opt = reconcile_target pref v then opt else reconcile_target pref v)
                else opt) opt0 = reconcile_target pref v := by
              simp only [if_pos heq, if_neg h2]
            have hmem := List.mem_map_of_mem (fun opt =>
                if norm_label opt = reconcile_letter pref then
                  (if pyStrip opt = reconcile_target pref v then opt else reconcile_target pref v)
                else opt) hin
            rw [hf] at hmem
            exact hmem
          · unfold reconcile_target
            apply norm_label_target
            · exact heq ▸ norm_label_no_dot opt0
            · exact congrArg String.data (reconcile_letter_strip_fix pref)
            · exact congrArg String.data (reconcile_letter_upper_fix pref)
          · unfold reconcile_target
            exact option_contains_target _ v
    · rw [ensure_forced _ pref v (List.cons_ne_nil o0 rest) (by simpa using hm)]
      constructor
      · simp only [List.length_set, List.length_cons]
        omega
      · refine ⟨"A. " ++ format_value_with_unit v, ?_, ?_, ?_⟩
        · rw [show (o0 :: rest).set 0 ("A. " ++ format_value_with_unit v) =
            ("A. " ++ format_value_with_unit v) :: rest from rfl]
          exact List.mem_cons_self _ _
        · exact norm_label_forced _
        · exact option_contains_forced v

/-! ### Helper characterizations of the comparator and the consensus checker -/

theorem values_equal_char (v1 v2 : ValueWithUnit) :
    values_equal v1 v2 TOL_DEFAULT = true ↔
      (pyLower (pyStrip v1.unit) = pyLower (pyStrip v2.unit) ∧
        |v1.value - v2.value| ≤ 1 / 1000000) := by
  unfold values_equal
  by_cases h : pyLower (pyStrip v1.unit) = pyLower (pyStrip v2.unit)
  · rw [if_neg (not_not_intro h), ratDiffAbsLe_iff, TOL_DEFAULT_eq]
    simp [h]
  · rw [if_pos h]
    simp [h]

theorem is_perfect_match_unfold (mcq : MCQQuestion) (sol_a sol_b : SolverResult)
    (correct : ValueWithUnit) (hc : mcq.meta.correct_value = some correct) :
    is_perfect_match mcq sol_a sol_b =
      (if ¬ ((unit_matches sol_a.final_value mcq.meta.required_unit &&
              unit_matches sol_b.final_value mcq.meta.required_unit &&
              unit_matches correct mcq.meta.required_unit) = true) then
        (false, "Unit mismatch between solvers and/or correct value.")
      else if ¬ ((values_equal sol_a.final_value sol_b.final_value TOL_DEFAULT &&
                  values_equal sol_a.final_value correct TOL_DEFAULT) = true) then
        (false, "Numeric mismatch between solvers and/or correct value.")
      else if ¬ ((truthyOptStr sol_a.selected_option && truthyOptStr sol_b.selected_option &&
                  truthyOptStr mcq.meta.correct_option_internal) = true) then
        (false, "Missing selected_option or correct_option_internal.")
      else if ¬ (sol_a.selected_option = sol_b.selected_option ∧
                 sol_b.selected_option = mcq.meta.correct_option_internal) then
        (false, "Option letter mismatch between solvers and meta.")
      else (true, "Perfect match.")) := by
  unfold is_perfect_match
  rw [hc]

/-- C9: for every pair of value-with-unit inputs, the Value Comparator
(utils.values_equal at its default tolerance) reports them equal exactly
when the absolute numeric difference is at most 1e-6 and the unit
strings agree after stripping whitespace and lowering case; outside that
tolerance, or with units differing beyond case and whitespace, it
reports not equal. -/
theorem C9_value_comparator (v1 v2 : ValueWithUnit) :
    values_equal v1 v2 TOL_DEFAULT = true ↔
      (pyLower (pyStrip v1.unit) = pyLower (pyStrip v2.unit) ∧
        |v1.value - v2.value| ≤ 1 / 1000000) :=
  values_equal_char v1 v2

/-- C3 counterexample: on options A. 2 m and A. 3 m with preferred label
A and value 5 m, the reconciler returns two options that both contain the
formatted value and unit under the returned label A, so exactly one
fails. -/
theorem C3_cex_exactly_one :
    ((ensure_option_contains_answer ["A. 2 m", "A. 3 m"] (some "A") ⟨5, "m"⟩).1.countP
        (fun o => option_contains_value o ⟨5, "m"⟩) = 2) ∧
    ((ensure_option_contains_answer ["A. 2 m", "A. 3 m"] (some "A") ⟨5, "m"⟩).2.1 = "A") ∧
    ((ensure_option_contains_answer ["A. 2 m", "A. 3 m"] (some "A") ⟨5, "m"⟩).1.countP
        (fun o => decide (norm_label o = "A") && option_contains_value o ⟨5, "m"⟩) = 2) := by
  decide

/-- C3 amended: the Option Reconciler returns a list of the same length
as the input (length 1 when the input is empty), and in the returned
list at least one option carries the returned final label as its label
prefix and textually contains the formatted final value and unit. -/
theorem C3_reconciler_size_and_contains (options : List String) (pref : Option String)
    (v : ValueWithUnit) :
    (ensure_option_contains_answer options pref v).1.length = max options.length 1 ∧
    ∃ opt ∈ (ensure_option_contains_answer options pref v).1,
      norm_label opt = (ensure_option_contains_answer options pref v).2.1 ∧
      option_contains_value opt v = true :=
  ensure_contains_core options pref v

/-- C4: on a non-empty option list in which no option's label prefix
equals the normalized preferred label, the Option Reconciler overwrites
the option at index 0 with the canonical string A-dot-value-unit and
returns final label A with changed true. -/
theorem C4_reconciler_forces_slot_A (options : List String) (pref : Option String)
    (v : ValueWithUnit) (hne : options ≠ [])
    (habsent : ∀ opt ∈ options, norm_label opt ≠ reconcile_letter pref) :
    ensure_option_contains_answer options pref v =
      (options.set 0 ("A. " ++ format_value_with_unit v), "A", true) := by
  have hm : (options.any fun opt => norm_label opt == reconcile_letter pref) = false := by
    rw [List.any_eq_false]
    intro opt hopt
    simpa using habsent opt hopt
  exact ensure_forced options pref v hne hm

/-- C4 witness at options B. 1 m and C. 2 m with preferred label Z and
value 5 m. -/
theorem C4_witness :
    ((["B. 1 m", "C. 2 m"] : List String) ≠ [] ∧
      (∀ opt ∈ (["B. 1 m", "C. 2 m"] : List String),
        norm_label opt ≠ reconcile_letter (some "Z"))) ∧
    ensure_option_contains_answer ["B. 1 m", "C. 2 m"] (some "Z") ⟨5, "m"⟩ =
      (["A. 5 m", "C. 2 m"], "A", true) := by
  refine ⟨⟨by decide, by decide⟩, ?_⟩
  rw [C4_reconciler_forces_slot_A ["B. 1 m", "C. 2 m"] (some "Z") ⟨5, "m"⟩ (by decide) (by decide)]
  decide

/-- C1: given metadata carrying a correct value, the Consensus Checker
evaluates its four gates in the fixed order unit-match, numeric-match,
presence-of-selections, label-match, short-circuits on the first failed
gate with the reason string of that gate, and returns matched true with
reason Perfect match exactly when all four gates pass. -/
theorem C1_consensus_order (mcq : MCQQuestion) (sol_a sol_b : SolverResult)
    (correct : ValueWithUnit) (hc : mcq.meta.correct_value = some correct) :
    (¬ ((unit_matches sol_a.final_value mcq.meta.required_unit &&
          unit_matches sol_b.final_value mcq.meta.required_unit &&
          unit_matches correct mcq.meta.required_unit) = true) →
      is_perfect_match mcq sol_a sol_b =
        (false, "Unit mismatch between solvers and/or correct value.")) ∧
    (((unit_matches sol_a.final_value mcq.meta.required_unit &&
        unit_matches sol_b.final_value mcq.meta.required_unit &&
        unit_matches correct mcq.meta.required_unit) = true) →
      ¬ ((values_equal sol_a.final_value sol_b.final_value TOL_DEFAULT &&
          values_equal sol_a.final_value correct TOL_DEFAULT) = true) →
      is_perfect_match mcq sol_a sol_b =
        (false, "Numeric mismatch between solvers and/or correct value.")) ∧
    (((unit_matches sol_a.final_value mcq.meta.required_unit &&
        unit_matches sol_b.final_value mcq.meta.required_unit &&
        unit_matches correct mcq.meta.required_unit) = true) →
      ((values_equal sol_a.final_value sol_b.final_value TOL_DEFAULT &&
        values_equal sol_a.final_value correct TOL_DEFAULT) = true) →
      ¬ ((truthyOptStr sol_a.selected_option && truthyOptStr sol_b.selected_option &&
          truthyOptStr mcq.meta.correct_option_internal) = true) →
      is_perfect_match mcq sol_a sol_b =
        (false, "Missing selected_option or correct_option_internal.")) ∧
    (((unit_matches sol_a.final_value mcq.meta.required_unit &&
        unit_matches sol_b.final_value mcq.meta.required_unit &&
        unit_matches correct mcq.meta.required_unit) = true) →
      ((values_equal sol_a.final_value sol_b.final_value TOL_DEFAULT &&
        values_equal sol_a.final_value correct TOL_DEFAULT) = true) →
      ((truthyOptStr sol_a.selected_option && truthyOptStr sol_b.selected_option &&
        truthyOptStr mcq.meta.correct_option_internal) = true) →
      ¬ (sol_a.selected_option = sol_b.selected_option ∧
          sol_b.selected_option = mcq.meta.correct_option_internal) →
      is_perfect_match mcq sol_a sol_b =
        (false, "Option letter mismatch between solvers and meta.")) ∧
    (is_perfect_match mcq sol_a sol_b = (true, "Perfect match.") ↔
      (((unit_matches sol_a.final_value mcq.meta.required_unit &&
          unit_matches sol_b.final_value mcq.meta.required_unit &&
          unit_matches correct mcq.meta.required_unit) = true) ∧
        ((values_equal sol_a.final_value sol_b.final_value TOL_DEFAULT &&
          values_equal sol_a.final_value correct TOL_DEFAULT) = true) ∧
        ((truthyOptStr sol_a.selected_option && truthyOptStr sol_b.selected_option &&
          truthyOptStr mcq.meta.correct_option_internal) = true) ∧
        (sol_a.selected_option = sol_b.selected_option ∧
          sol_b.selected_option = mcq.meta.correct_option_internal))) ∧
    ((is_perfect_match mcq sol_a sol_b).1 = true ↔
      (((unit_matches sol_a.final_value mcq.meta.required_unit &&
          unit_matches sol_b.final_value mcq.meta.required_unit &&
          unit_matches correct mcq.meta.required_unit) = true) ∧
        ((values_equal sol_a.final_value sol_b.final_value TOL_DEFAULT &&
          values_equal sol_a.final_value correct TOL_DEFAULT) = true) ∧
        ((truthyOptStr sol_a.selected_option && truthyOptStr sol_b.selected_option &&
          truthyOptStr mcq.meta.correct_option_internal) = true) ∧
        (sol_a.selected_option = sol_b.selected_option ∧
          sol_b.selected_option = mcq.meta.correct_option_internal))) := by
  rw [is_perfect_match_unfold mcq sol_a sol_b correct hc]
  refine ⟨?_, ?_, ?_, ?_, ?_, ?_⟩
  · intro h1
    rw [if_pos h1]
  · intro h1 h2
    rw [if_neg (not_not_intro h1), if_pos h2]
  · intro h1 h2 h3
    rw [if_neg (not_not_intro h1), if_neg (not_not_intro h2), if_pos h3]
  · intro h1 h2 h3 h4
    rw [if_neg (not_not_intro h1), if_neg (not_not_intro h2), if_neg (not_not_intro h3),
      if_pos h4]
  · split_ifs with h1 h2 h3 h4 <;> simp_all
  · split_ifs with h1 h2 h3 h4 <;> simp_all

/-- C1 witness: a concrete perfect-match configuration, obtained through
the perfect-match direction of the C1 theorem. -/
theorem C1_witness :
    ((⟨none, "q", ["A. x"],
        ⟨none, none, some "m/s", some "B", some ⟨12, "m/s"⟩⟩⟩ :
      MCQQuestion).meta.correct_value = some ⟨12, "m/s"⟩) ∧
    is_perfect_match
      ⟨none, "q", ["A. x"], ⟨none, none, some "m/s", some "B", some ⟨12, "m/s"⟩⟩⟩
      ⟨"A", none, ⟨12, "m/s"⟩, some "B", "r", none⟩
      ⟨"B", none, ⟨12, "m/s"⟩, some "B", "r", none⟩ =
      (true, "Perfect match.") := by
  refine ⟨rfl, ?_⟩
  exact (C1_consensus_order
    ⟨none, "q", ["A. x"], ⟨none, none, some "m/s", some "B", some ⟨12, "m/s"⟩⟩⟩
    ⟨"A", none, ⟨12, "m/s"⟩, some "B", "r", none⟩
    ⟨"B", none, ⟨12, "m/s"⟩, some "B", "r", none⟩
    ⟨12, "m/s"⟩ rfl).2.2.2.2.1.mpr ⟨by decide, by decide, by decide, by decide⟩

/-- C2 counterexample: with Judgment A at 0, Judgment B at 1e-6 and the
correct value at -1e-6 (all in the required unit and all selecting the
correct option), the coded numeric gate passes (it only compares A with
B and A with the correct value) and the checker reports a perfect match,
although the difference between Judgment B's value and the correct value
is 2e-6, beyond the tolerance the claim requires of both judgments. -/
theorem C2_cex_transitivity :
    is_perfect_match
      ⟨none, "q", ["A. x"], ⟨none, none, some "m/s", some "B",
        some ⟨(⟨-1, 1000000, by decide, by decide⟩ : ℚ), "m/s"⟩⟩⟩
      ⟨"A", none, ⟨0, "m/s"⟩, some "B", "r", none⟩
      ⟨"B", none, ⟨(⟨1, 1000000, by decide, by decide⟩ : ℚ), "m/s"⟩, some "B", "r", none⟩ =
      (true, "Perfect match.") ∧
    ¬ (|(⟨1, 1000000, by decide, by decide⟩ : ℚ) -
        (⟨-1, 1000000, by decide, by decide⟩ : ℚ)| ≤ 1 / 1000000) := by
  constructor
  · decide
  · rw [← TOL_DEFAULT_eq, ← ratDiffAbsLe_iff]
    decide

/-- C2 amended: given metadata with a correct value and a passing unit
gate, the numeric gate of the Consensus Checker fails with reason
Numeric mismatch exactly when it is not the case that Judgment A equals
Judgment B and Judgment A equals the correct value, each within absolute
tolerance 1e-6 and with unit strings agreeing after strip and lower; the
comparison between Judgment B and the correct value is not part of the
gate. -/
theorem C2_numeric_gate (mcq : MCQQuestion) (sol_a sol_b : SolverResult)
    (correct : ValueWithUnit) (hc : mcq.meta.correct_value = some correct)
    (hu : (unit_matches sol_a.final_value mcq.meta.required_unit &&
        unit_matches sol_b.final_value mcq.meta.required_unit &&
        unit_matches correct mcq.meta.required_unit) = true) :
    is_perfect_match mcq sol_a sol_b =
        (false, "Numeric mismatch between solvers and/or correct value.") ↔
      ¬ ((pyLower (pyStrip sol_a.final_value.unit) = pyLower (pyStrip sol_b.final_value.unit) ∧
          |sol_a.final_value.value - sol_b.final_value.value| ≤ 1 / 1000000) ∧
         (pyLower (pyStrip sol_a.final_value.unit) = pyLower (pyStrip correct.unit) ∧
          |sol_a.final_value.value - correct.value| ≤ 1 / 1000000)) := by
  rw [is_perfect_match_unfold mcq sol_a sol_b correct hc, if_neg (not_not_intro hu)]
  have hvv : (values_equal sol_a.final_value sol_b.final_value TOL_DEFAULT &&
      values_equal sol_a.final_value correct TOL_DEFAULT) = true ↔
      ((pyLower (pyStrip sol_a.final_value.unit) = pyLower (pyStrip sol_b.final_value.unit) ∧
          |sol_a.final_value.value - sol_b.final_value.value| ≤ 1 / 1000000) ∧
        (pyLower (pyStrip sol_a.final_value.unit) = pyLower (pyStrip correct.unit) ∧
          |sol_a.final_value.value - correct.value| ≤ 1 / 1000000)) := by
    rw [Bool.and_eq_true, values_equal_char, values_equal_char]
  by_cases hN : (values_equal sol_a.final_value sol_b.final_value TOL_DEFAULT &&
      values_equal sol_a.final_value correct TOL_DEFAULT) = true
  · rw [if_neg (not_not_intro hN)]
    constructor
    · intro he
      exfalso
      split_ifs at he with h3 h4 <;> exact absurd (congrArg Prod.snd he) (by decide)
    · intro hn
      exact absurd (hvv.mp hN) hn
  · rw [if_pos hN]
    constructor
    · intro _ hcond
      exact hN (hvv.mpr hcond)
    · intro _
      rfl

/-- C2 witness: solver values 0 and 1 in matching units fail the numeric
gate with the specific numeric-mismatch reason. -/
theorem C2_witness :
    ((⟨none, "q", ["A. x"], ⟨none, none, some "m/s", some "B", some ⟨7, "m/s"⟩⟩⟩ :
        MCQQuestion).meta.correct_value = some ⟨7, "m/s"⟩) ∧
    is_perfect_match
      ⟨none, "q", ["A. x"], ⟨none, none, some "m/s", some "B", some ⟨7, "m/s"⟩⟩⟩
      ⟨"A", none, ⟨0, "m/s"⟩, some "B", "r", none⟩
      ⟨"B", none, ⟨1, "m/s"⟩, some "B", "r", none⟩ =
      (false, "Numeric mismatch between solvers and/or correct value.") := by
  refine ⟨rfl, ?_⟩
  refine (C2_numeric_gate _ _ _ ⟨7, "m/s"⟩ rfl (by decide)).mpr ?_
  intro hcond
  exact absurd hcond.1.2 (by rw [← TOL_DEFAULT_eq, ← ratDiffAbsLe_iff]; decide)

theorem find?_append_none {α : Type} (p : α → Bool) (l1 l2 : List α)
    (h : ∀ x ∈ l1, p x = false) : (l1 ++ l2).find? p = l2.find? p := by
  induction l1 with
  | nil => rfl
  | cons a r ih =>
    rw [List.cons_append,
      List.find?_cons_of_neg _ (by simp [h a (List.mem_cons_self a r)])]
    exact ih (fun x hx => h x (List.mem_cons_of_mem a hx))

theorem extract_last_referee (l1 l2 : List ChatMessage) (m : ChatMessage)
    (hname : m.name = "Referee") (hlast : ∀ m' ∈ l2, m'.name ≠ "Referee")
    (parseDecision : String → Option RefereeDecision) :
    extract_referee_decision (l1 ++ m :: l2) parseDecision =
      (if m.content = "" then .error .noRefereeOutput
       else
        match parseDecision m.content with
        | none => .error (.malformedDecision m.content)
        | some d => .ok d) := by
  unfold extract_referee_decision
  have hrev : (l1 ++ m :: l2).reverse = l2.reverse ++ m :: l1.reverse := by
    rw [List.reverse_append, List.reverse_cons, List.append_assoc, List.singleton_append]
  rw [hrev, find?_append_none _ _ _
    (fun x hx => by
      have := hlast x (List.mem_reverse.mp hx)
      simpa using this),
    List.find?_cons_of_pos _ (by simp [hname])]

/-- C8 counterexample: a transcript whose only message is attributed to
the Referee but has empty content is answered with the
no-referee-output failure, not the malformed-decision failure the claim
requires for an existing message whose content does not parse. -/
theorem C8_cex_empty_content :
    (∃ msg ∈ [(⟨"Referee", ""⟩ : ChatMessage)], msg.name = "Referee") ∧
    extract_referee_decision [⟨"Referee", ""⟩] (fun _ => none) =
      .error .noRefereeOutput ∧
    (fun _ => (none : Option RefereeDecision)) "" = none :=
  ⟨⟨⟨"Referee", ""⟩, List.mem_singleton_self _, rfl⟩, rfl, rfl⟩

/-- C8 amended: the Arbitration Coordinator's extraction scans the
transcript backward and selects the most recent message attributed to
the Referee role; it fails with NoRefereeOutput when no Referee message
exists or when the selected message's content is empty (Python
falsiness), fails with MalformedDecision when the non-empty content does
not parse as the decision schema, and returns the parsed decision
otherwise. -/
theorem C8_referee_extraction (messages : List ChatMessage)
    (parseDecision : String → Option RefereeDecision) :
    ((∀ m ∈ messages, m.name ≠ "Referee") →
        extract_referee_decision messages parseDecision = .error .noRefereeOutput) ∧
    (∀ l1 m l2, messages = l1 ++ m :: l2 → m.name = "Referee" →
      (∀ m' ∈ l2, m'.name ≠ "Referee") →
      ((m.content = "" →
          extract_referee_decision messages parseDecision = .error .noRefereeOutput) ∧
       (m.content ≠ "" → parseDecision m.content = none →
          extract_referee_decision messages parseDecision =
            .error (.malformedDecision m.content)) ∧
       (∀ d, m.content ≠ "" → parseDecision m.content = some d →
          extract_referee_decision messages parseDecision = .ok d))) := by
  constructor
  · intro hnone
    unfold extract_referee_decision
    rw [List.find?_eq_none.mpr (fun x hx => by
      have := hnone x (List.mem_reverse.mp hx)
      simpa using this)]
  · intro l1 m l2 hsplit hname hlast
    subst hsplit
    rw [extract_last_referee l1 l2 m hname hlast parseDecision]
    refine ⟨?_, ?_, ?_⟩
    · intro hempty
      rw [if_pos hempty]
    · intro hne hparse
      rw [if_neg hne, hparse]
    · intro d hne hparse
      rw [if_neg hne, hparse]

/-- C8 witness: a two-message transcript whose last Referee message
parses, extracted through the amended theorem. -/
theorem C8_witness :
    (([(⟨"User", "hi"⟩ : ChatMessage)] ++ (⟨"Referee", "decision"⟩ : ChatMessage) :: [] =
        [⟨"User", "hi"⟩, ⟨"Referee", "decision"⟩]) ∧
      (⟨"Referee", "decision"⟩ : ChatMessage).name = "Referee") ∧
    extract_referee_decision [⟨"User", "hi"⟩, ⟨"Referee", "decision"⟩]
      (fun s => if s = "decision" then
        some ⟨RefStatus.accepted, some ⟨3, "m"⟩, some "A", some "ok"⟩ else none) =
      .ok ⟨RefStatus.accepted, some ⟨3, "m"⟩, some "A", some "ok"⟩ := by
  refine ⟨⟨rfl, rfl⟩, ?_⟩
  exact ((C8_referee_extraction [⟨"User", "hi"⟩, ⟨"Referee", "decision"⟩]
    (fun s => if s = "decision" then
      some ⟨RefStatus.accepted, some ⟨3, "m"⟩, some "A", some "ok"⟩ else none)).2
    [⟨"User", "hi"⟩] ⟨"Referee", "decision"⟩ [] rfl rfl (by simp)).2.2
    ⟨RefStatus.accepted, some ⟨3, "m"⟩, some "A", some "ok"⟩ (by decide) (by decide)

/-! ### Behaviour of one attempt and of the retry loop -/

theorem run_attempt_gen_error (o : CycleOracles) (req : GenerateRequest) (a : Nat) (e : String)
    (h : o.generate a = .error e) :
    run_attempt o req a = .retry ("Generator error on attempt " ++ toString a ++ ": " ++ e) := by
  unfold run_attempt
  rw [h]

theorem run_attempt_solver_fatal (o : CycleOracles) (req : GenerateRequest) (a : Nat)
    (mcq : MCQQuestion) (e : String) (hg : o.generate a = .ok mcq)
    (hs : o.solveA mcq = .error e ∨ ∃ sa, o.solveA mcq = .ok sa ∧ o.solveB mcq = .error e) :
    run_attempt o req a = .fatal ("Error calling solvers: " ++ e) := by
  unfold run_attempt
  cases hs with
  | inl h => simp only [hg, h]
  | inr h =>
    obtain ⟨sa, h1, h2⟩ := h
    simp only [hg, h1, h2]

theorem run_attempt_referee_error (o : CycleOracles) (req : GenerateRequest) (a : Nat)
    (mcq : MCQQuestion) (sa sb : SolverResult) (e : String)
    (hg : o.generate a = .ok mcq) (ha : o.solveA mcq = .ok sa) (hb : o.solveB mcq = .ok sb)
    (hm : (is_perfect_match mcq sa sb).1 = false)
    (hr : ∀ ctl, o.referee mcq sa sb ctl = .error e) :
    run_attempt o req a =
      .retry ("Referee group chat failed on attempt " ++ toString a ++ ": " ++ e) := by
  unfold run_attempt
  simp only [hg, ha, hb, hm, Bool.false_eq_true, if_false]
  cases hctl : o.controller mcq <;> simp only [hctl, hr]

theorem run_attempt_rejected (o : CycleOracles) (req : GenerateRequest) (a : Nat)
    (mcq : MCQQuestion) (sa sb : SolverResult) (d : RefereeDecision)
    (hg : o.generate a = .ok mcq) (ha : o.solveA mcq = .ok sa) (hb : o.solveB mcq = .ok sb)
    (hm : (is_perfect_match mcq sa sb).1 = false)
    (hr : ∀ ctl, o.referee mcq sa sb ctl = .ok d)
    (hrej : d.status = RefStatus.reject_and_regenerate ∨ d.final_value = none) :
    run_attempt o req a =
      .retry ("Referee requested regeneration on attempt " ++ toString a ++ ": " ++
        optStrOrNone d.explanation) := by
  unfold run_attempt
  simp only [hg, ha, hb, hm, Bool.false_eq_true, if_false]
  cases hrej with
  | inl hst =>
    cases hfv : d.final_value <;>
      cases hctl : o.controller mcq <;> simp only [hctl, hr, hst, hfv]
  | inr hfv =>
    cases hst : d.status <;>
      cases hctl : o.controller mcq <;> simp only [hctl, hr, hst, hfv]

theorem run_attempt_unit_mismatch (o : CycleOracles) (req : GenerateRequest) (a : Nat)
    (mcq : MCQQuestion) (sa sb : SolverResult) (d : RefereeDecision) (fv : ValueWithUnit)
    (hg : o.generate a = .ok mcq) (ha : o.solveA mcq = .ok sa) (hb : o.solveB mcq = .ok sb)
    (hm : (is_perfect_match mcq sa sb).1 = false)
    (hr : ∀ ctl, o.referee mcq sa sb ctl = .ok d)
    (hacc : d.status = RefStatus.accepted) (hfv : d.final_value = some fv)
    (hu : unit_matches fv mcq.meta.required_unit = false) :
    run_attempt o req a = .retry "Referee final value unit does not match required unit." := by
  unfold run_attempt
  simp only [hg, ha, hb, hm, Bool.false_eq_true, if_false]
  cases hctl : o.controller mcq <;> simp only [hctl, hr, hacc, hfv] <;>
    rw [if_pos (by simp [hu])]

theorem run_attempt_accepted (o : CycleOracles) (req : GenerateRequest) (a : Nat)
    (mcq : MCQQuestion) (sa sb : SolverResult) (d : RefereeDecision) (v : ValueWithUnit)
    (hg : o.generate a = .ok mcq) (ha : o.solveA mcq = .ok sa) (hb : o.solveB mcq = .ok sb)
    (hm : (is_perfect_match mcq sa sb).1 = false)
    (hr : ∀ ctl, o.referee mcq sa sb ctl = .ok d)
    (hacc : d.status = RefStatus.accepted) (hfv : d.final_value = some v)
    (hu : unit_matches v mcq.meta.required_unit = true) :
    ∃ art : FinalMCQ, run_attempt o req a = .success art ∧
      art.options = (ensure_option_contains_answer mcq.options d.selected_option v).1 ∧
      art.answer = (ensure_option_contains_answer mcq.options d.selected_option v).2.1 ∧
      art.answer_value = v := by
  unfold run_attempt
  simp only [hg, ha, hb, hm, Bool.false_eq_true, if_false]
  cases hctl : o.controller mcq <;> simp only [hctl, hr, hacc, hfv] <;>
    rw [if_neg (by simp [hu])] <;> exact ⟨_, rfl, rfl, rfl, rfl⟩

theorem run_attempt_controller_error_accepted (o : CycleOracles) (req : GenerateRequest)
    (a : Nat) (mcq : MCQQuestion) (sa sb : SolverResult) (d : RefereeDecision)
    (v : ValueWithUnit) (ce : String)
    (hg : o.generate a = .ok mcq) (ha : o.solveA mcq = .ok sa) (hb : o.solveB mcq = .ok sb)
    (hm : (is_perfect_match mcq sa sb).1 = false)
    (hctl : o.controller mcq = .error ce)
    (hr : o.referee mcq sa sb none = .ok d)
    (hacc : d.status = RefStatus.accepted) (hfv : d.final_value = some v)
    (hu : unit_matches v mcq.meta.required_unit = true) :
    ∃ art : FinalMCQ, run_attempt o req a = .success art ∧ art.answer_value = v := by
  unfold run_attempt
  simp only [hg, ha, hb, hm, Bool.false_eq_true, if_false]
  simp only [hctl, hr, hacc, hfv]
  rw [if_neg (by simp [hu])]
  exact ⟨_, rfl, rfl⟩

theorem run_cycle_from_retry (o : CycleOracles) (req : GenerateRequest) (M a n : Nat)
    (le : Option String) (msg : String) (h : run_attempt o req a = .retry msg) :
    run_cycle_from o req M a (n + 1) le = run_cycle_from o req M (a + 1) n (some msg) := by
  rw [run_cycle_from, h]

theorem run_cycle_from_fatal (o : CycleOracles) (req : GenerateRequest) (M a n : Nat)
    (le : Option String) (msg : String) (h : run_attempt o req a = .fatal msg) :
    run_cycle_from o req M a (n + 1) le = .error (.solverCall msg) := by
  rw [run_cycle_from, h]

theorem run_cycle_from_success (o : CycleOracles) (req : GenerateRequest) (M a n : Nat)
    (le : Option String) (art : FinalMCQ) (h : run_attempt o req a = .success art) :
    run_cycle_from o req M a (n + 1) le = .ok art := by
  rw [run_cycle_from, h]

/-- C5: in a cycle whose first attempt generates an item, has both
solver calls succeed, fails the Consensus Checker, and gets an accepted
arbitration decision with a non-null final value whose unit matches the
required unit, the cycle returns a Final Artifact whose answer equals
the reconciled label, whose answer value equals the decision's final
value, whose options are the reconciled options, and among whose options
at least one carries the answer label as its prefix and textually
contains the decision's formatted final value and its unit. -/
theorem C5_accepted_artifact (o : CycleOracles) (req : GenerateRequest) (mcq : MCQQuestion)
    (sa sb : SolverResult) (d : RefereeDecision) (v : ValueWithUnit)
    (hg : o.generate 1 = .ok mcq) (ha : o.solveA mcq = .ok sa) (hb : o.solveB mcq = .ok sb)
    (hm : (is_perfect_match mcq sa sb).1 = false)
    (hr : ∀ ctl, o.referee mcq sa sb ctl = .ok d)
    (hacc : d.status = RefStatus.accepted) (hfv : d.final_value = some v)
    (hu : unit_matches v mcq.meta.required_unit = true) :
    ∃ art : FinalMCQ, run_generation_cycle o req = .ok art ∧
      art.answer = (ensure_option_contains_answer mcq.options d.selected_option v).2.1 ∧
      art.answer_value = v ∧
      art.options = (ensure_option_contains_answer mcq.options d.selected_option v).1 ∧
      ∃ opt ∈ art.options, norm_label opt = art.answer ∧ option_contains_value opt v = true := by
  obtain ⟨art, hrun, hopts, hans, hval⟩ :=
    run_attempt_accepted o req 1 mcq sa sb d v hg ha hb hm hr hacc hfv hu
  refine ⟨art, ?_, hans, hval, hopts, ?_⟩
  · exact run_cycle_from_success o req MAX_RETRIES 1 2 none art hrun
  · obtain ⟨_, opt, hmem, hlab, hcont⟩ := ensure_contains_core mcq.options d.selected_option v
    refine ⟨opt, ?_, ?_, hcont⟩
    · rw [hopts]
      exact hmem
    · rw [hans]
      exact hlab

/-- C5 witness on the concrete fixtures: mismatching solver values, an
accepted decision at 11 m/s, and the resulting artifact. -/
theorem C5_witness :
    ((is_perfect_match mcqFix solAFix solBFix).1 = false ∧
      decFix.status = RefStatus.accepted ∧ decFix.final_value = some ⟨11, "m/s"⟩ ∧
      unit_matches ⟨11, "m/s"⟩ mcqFix.meta.required_unit = true) ∧
    (∃ art : FinalMCQ, run_generation_cycle oAccept reqFix = .ok art ∧
      art.answer = (ensure_option_contains_answer mcqFix.options decFix.selected_option
        ⟨11, "m/s"⟩).2.1 ∧
      art.answer_value = ⟨11, "m/s"⟩ ∧
      art.options = (ensure_option_contains_answer mcqFix.options decFix.selected_option
        ⟨11, "m/s"⟩).1 ∧
      ∃ opt ∈ art.options, norm_label opt = art.answer ∧
        option_contains_value opt ⟨11, "m/s"⟩ = true) := by
  refine ⟨⟨by decide, rfl, rfl, by decide⟩, ?_⟩
  exact C5_accepted_artifact oAccept reqFix mcqFix solAFix solBFix decFix ⟨11, "m/s"⟩
    rfl rfl rfl (by decide) (fun _ => rfl) rfl rfl (by decide)

/-- C6: MAX_RETRIES defaults to 3; a cycle whose every attempt ends in a
recoverable error fails with exhausted retries carrying the last
recorded error message, and in particular maximal consecutive generation
errors yield that failure with the last generation error's message. -/
theorem C6_exhausted_retries :
    MAX_RETRIES = 3 ∧
    (∀ (o : CycleOracles) (req : GenerateRequest) (m : Nat → String),
      (∀ a, 1 ≤ a → a ≤ MAX_RETRIES → run_attempt o req a = .retry (m a)) →
      run_generation_cycle o req =
        .error (.exhaustedRetries (exhausted_message MAX_RETRIES (some (m MAX_RETRIES))))) ∧
    (∀ (o : CycleOracles) (req : GenerateRequest) (e : Nat → String),
      (∀ a, o.generate a = .error (e a)) →
      run_generation_cycle o req =
        .error (.exhaustedRetries (exhausted_message MAX_RETRIES
          (some ("Generator error on attempt " ++ toString MAX_RETRIES ++ ": " ++
            e MAX_RETRIES))))) := by
  have main : ∀ (o : CycleOracles) (req : GenerateRequest) (m : Nat → String),
      (∀ a, 1 ≤ a → a ≤ MAX_RETRIES → run_attempt o req a = .retry (m a)) →
      run_generation_cycle o req =
        .error (.exhaustedRetries (exhausted_message MAX_RETRIES (some (m MAX_RETRIES)))) := by
    intro o req m H
    have h1 := H 1 (by decide) (by decide)
    have h2 := H 2 (by decide) (by decide)
    have h3 := H 3 (by decide) (by decide)
    show run_cycle_from o req MAX_RETRIES 1 MAX_RETRIES none = _
    calc run_cycle_from o req MAX_RETRIES 1 MAX_RETRIES none
        = run_cycle_from o req MAX_RETRIES 2 2 (some (m 1)) :=
          run_cycle_from_retry o req MAX_RETRIES 1 2 none (m 1) h1
      _ = run_cycle_from o req MAX_RETRIES 3 1 (some (m 2)) :=
          run_cycle_from_retry o req MAX_RETRIES 2 1 (some (m 1)) (m 2) h2
      _ = run_cycle_from o req MAX_RETRIES 4 0 (some (m 3)) :=
          run_cycle_from_retry o req MAX_RETRIES 3 0 (some (m 2)) (m 3) h3
      _ = .error (.exhaustedRetries (exhausted_message MAX_RETRIES (some (m MAX_RETRIES)))) :=
          rfl
  refine ⟨rfl, main, ?_⟩
  intro o req e H
  exact main o req
    (fun a => "Generator error on attempt " ++ toString a ++ ": " ++ e a)
    (fun a _ _ => run_attempt_gen_error o req a (e a) (H a))

/-- C6 witness: an oracle whose generator always fails exhausts the
three attempts with the last generation error attached. -/
theorem C6_witness :
    oGenErr.generate 3 = .error "gen down" ∧
    run_generation_cycle oGenErr reqFix =
      .error (.exhaustedRetries (exhausted_message MAX_RETRIES
        (some ("Generator error on attempt " ++ toString MAX_RETRIES ++ ": " ++ "gen down")))) := by
  refine ⟨rfl, ?_⟩
  exact C6_exhausted_retries.2.2 oGenErr reqFix (fun _ => "gen down") (fun a => rfl)

/-- C7 counterexample: with oracles whose controller solver fails on an
attempt whose referee then accepts a valid value, the attempt itself
returns the Final Artifact and the cycle succeeds without ever reaching
the next attempt (whose generator is broken), so a controller-solver
error does not make the loop advance to the next attempt. -/
theorem C7_cex_controller_error_no_advance :
    oCtl.controller mcqFix = .error "controller down" ∧
    oCtl.generate 2 = .error "generator offline" ∧
    isSuccessOutcome (run_attempt oCtl reqFix 1) = true ∧
    isOkResult (run_generation_cycle oCtl reqFix) = true := by
  refine ⟨rfl, rfl, by decide, by decide⟩

/-- C7 amended: a failing external solver call makes the attempt fatal
and the whole cycle fails immediately with the solver-call error,
independently of how many attempts remain; a generation error, an
arbitration error, a rejected (or value-less) decision and a
unit-mismatch error each end the attempt with a recorded retry message,
and a retry outcome makes the loop advance to the next attempt; a
controller-solver error, by contrast, is recorded but the same attempt
proceeds to arbitration without the controller judgment and can still
succeed. -/
theorem C7_fatal_and_recoverable :
    (∀ (o : CycleOracles) (req : GenerateRequest) (a : Nat) (mcq : MCQQuestion) (e : String),
      o.generate a = .ok mcq →
      (o.solveA mcq = .error e ∨ ∃ sa, o.solveA mcq = .ok sa ∧ o.solveB mcq = .error e) →
      run_attempt o req a = .fatal ("Error calling solvers: " ++ e) ∧
      ∀ M n le, run_cycle_from o req M a (n + 1) le =
        .error (.solverCall ("Error calling solvers: " ++ e))) ∧
    (∀ (o : CycleOracles) (req : GenerateRequest) (M a n : Nat) (le : Option String)
        (msg : String),
      run_attempt o req a = .retry msg →
      run_cycle_from o req M a (n + 1) le = run_cycle_from o req M (a + 1) n (some msg)) ∧
    (∀ (o : CycleOracles) (req : GenerateRequest) (a : Nat) (e : String),
      o.generate a = .error e →
      run_attempt o req a = .retry ("Generator error on attempt " ++ toString a ++ ": " ++ e)) ∧
    (∀ (o : CycleOracles) (req : GenerateRequest) (a : Nat) (mcq : MCQQuestion)
        (sa sb : SolverResult) (e : String),
      o.generate a = .ok mcq → o.solveA mcq = .ok sa → o.solveB mcq = .ok sb →
      (is_perfect_match mcq sa sb).1 = false →
      (∀ ctl, o.referee mcq sa sb ctl = .error e) →
      run_attempt o req a =
        .retry ("Referee group chat failed on attempt " ++ toString a ++ ": " ++ e)) ∧
    (∀ (o : CycleOracles) (req : GenerateRequest) (a : Nat) (mcq : MCQQuestion)
        (sa sb : SolverResult) (d : RefereeDecision),
      o.generate a = .ok mcq → o.solveA mcq = .ok sa → o.solveB mcq = .ok sb →
      (is_perfect_match mcq sa sb).1 = false →
      (∀ ctl, o.referee mcq sa sb ctl = .ok d) →
      (d.status = RefStatus.reject_and_regenerate ∨ d.final_value = none) →
      run_attempt o req a =
        .retry ("Referee requested regeneration on attempt " ++ toString a ++ ": " ++
          optStrOrNone d.explanation)) ∧
    (∀ (o : CycleOracles) (req : GenerateRequest) (a : Nat) (mcq : MCQQuestion)
        (sa sb : SolverResult) (d : RefereeDecision) (fv : ValueWithUnit),
      o.generate a = .ok mcq → o.solveA mcq = .ok sa → o.solveB mcq = .ok sb →
      (is_perfect_match mcq sa sb).1 = false →
      (∀ ctl, o.referee mcq sa sb ctl = .ok d) →
      d.status = RefStatus.accepted → d.final_value = some fv →
      unit_matches fv mcq.meta.required_unit = false →
      run_attempt o req a = .retry "Referee final value unit does not match required unit.") ∧
    (∀ (o : CycleOracles) (req : GenerateRequest) (a : Nat) (mcq : MCQQuestion)
        (sa sb : SolverResult) (d : RefereeDecision) (v : ValueWithUnit) (ce : String),
      o.generate a = .ok mcq → o.solveA mcq = .ok sa → o.solveB mcq = .ok sb →
      (is_perfect_match mcq sa sb).1 = false →
      o.controller mcq = .error ce →
      o.referee mcq sa sb none = .ok d →
      d.status = RefStatus.accepted → d.final_value = some v →
      unit_matches v mcq.meta.required_unit = true →
      ∃ art : FinalMCQ, run_attempt o req a = .success art ∧ art.answer_value = v) := by
  refine ⟨?_, ?_, ?_, ?_, ?_, ?_, ?_⟩
  · intro o req a mcq e hg hs
    have hf := run_attempt_solver_fatal o req a mcq e hg hs
    exact ⟨hf, fun M n le => run_cycle_from_fatal o req M a n le _ hf⟩
  · intro o req M a n le msg h
    exact run_cycle_from_retry o req M a n le msg h
  · intro o req a e h
    exact run_attempt_gen_error o req a e h
  · intro o req a mcq sa sb e hg ha hb hm hr
    exact run_attempt_referee_error o req a mcq sa sb e hg ha hb hm hr
  · intro o req a mcq sa sb d hg ha hb hm hr hrej
    exact run_attempt_rejected o req a mcq sa sb d hg ha hb hm hr hrej
  · intro o req a mcq sa sb d fv hg ha hb hm hr hacc hfv hu
    exact run_attempt_unit_mismatch o req a mcq sa sb d fv hg ha hb hm hr hacc hfv hu
  · intro o req a mcq sa sb d v ce hg ha hb hm hctl hr hacc hfv hu
    exact run_attempt_controller_error_accepted o req a mcq sa sb d v ce
      hg ha hb hm hctl hr hacc hfv hu

/-- C7 witness: each branch of the amended claim exercised on the
concrete oracle fixtures. -/
theorem C7_witness :
    run_cycle_from oFatal reqFix 3 1 3 none =
      .error (.solverCall ("Error calling solvers: " ++ "solver A down")) ∧
    run_cycle_from oGenErr reqFix 3 1 3 none =
      run_cycle_from oGenErr reqFix 3 2 2
        (some ("Generator error on attempt " ++ toString 1 ++ ": " ++ "gen down")) ∧
    run_attempt oGenErr reqFix 1 =
      .retry ("Generator error on attempt " ++ toString 1 ++ ": " ++ "gen down") ∧
    run_attempt oRefErr reqFix 1 =
      .retry ("Referee group chat failed on attempt " ++ toString 1 ++ ": " ++ "chat crashed") ∧
    run_attempt oRej reqFix 1 =
      .retry ("Referee requested regeneration on attempt " ++ toString 1 ++ ": " ++
        optStrOrNone decRejFix.explanation) ∧
    run_attempt oUnit reqFix 1 =
      .retry "Referee final value unit does not match required unit." ∧
    ∃ art : FinalMCQ, run_attempt oCtl reqFix 1 = .success art ∧
      art.answer_value = ⟨11, "m/s"⟩ := by
  refine ⟨?_, ?_, ?_, ?_, ?_, ?_, ?_⟩
  · exact (C7_fatal_and_recoverable.1 oFatal reqFix 1 mcqFix "solver A down" rfl
      (Or.inl rfl)).2 3 2 none
  · exact C7_fatal_and_recoverable.2.1 oGenErr reqFix 3 1 2 none _
      (C7_fatal_and_recoverable.2.2.1 oGenErr reqFix 1 "gen down" rfl)
  · exact C7_fatal_and_recoverable.2.2.1 oGenErr reqFix 1 "gen down" rfl
  · exact C7_fatal_and_recoverable.2.2.2.1 oRefErr reqFix 1 mcqFix solAFix solBFix
      "chat crashed" rfl rfl rfl (by decide) (fun _ => rfl)
  · exact C7_fatal_and_recoverable.2.2.2.2.1 oRej reqFix 1 mcqFix solAFix solBFix decRejFix
      rfl rfl rfl (by decide) (fun _ => rfl) (Or.inl rfl)
  · exact C7_fatal_and_recoverable.2.2.2.2.2.1 oUnit reqFix 1 mcqFix solAFix solBFix
      decBadUnitFix ⟨11, "km/h"⟩ rfl rfl rfl (by decide) (fun _ => rfl) rfl rfl (by decide)
  · exact C7_fatal_and_recoverable.2.2.2.2.2.2 oCtl reqFix 1 mcqFix solAFix solBFix decFix
      ⟨11, "m/s"⟩ "controller down" rfl rfl rfl (by decide) rfl rfl rfl rfl (by decide)

/-! ### Fixed points of strip and the canonical target text -/

theorem pyOrStr_some_of_ne (p d : String) (h : p ≠ "") : pyOrStr (some p) d = p := by
  show (if p = "" then d else p) = p
  rw [if_neg h]

theorem strip_fix_head (s : String) (hs : pyStrip s = s) (hne : s ≠ "") :
    ∃ c r, s.data = c :: r ∧ isPySpace c = false := by
  have hdata : stripList s.data = s.data := congrArg String.data hs
  obtain ⟨hf, _⟩ := stripList_fix_parts s.data hdata
  cases hd : s.data with
  | nil =>
    exact absurd (congrArg String.mk hd : s = "") hne
  | cons c r =>
    rw [hd] at hf
    exact ⟨c, r, rfl, dropWhile_fix_head_false _ _ _ hf⟩

theorem strip_fix_last (s : String) (hs : pyStrip s = s) (hne : s ≠ "") :
    ∃ c r, s.data.reverse = c :: r ∧ isPySpace c = false := by
  have hdata : stripList s.data = s.data := congrArg String.data hs
  obtain ⟨_, hb⟩ := stripList_fix_parts s.data hdata
  cases hd : s.data.reverse with
  | nil =>
    have : s.data = [] := by
      have := congrArg List.reverse hd
      simpa using this
    exact absurd (congrArg String.mk this : s = "") hne
  | cons c r =>
    rw [hd] at hb
    exact ⟨c, r, rfl, dropWhile_fix_head_false _ _ _ hb⟩

theorem target_data_shape (p : String) (v : ValueWithUnit) :
    (p ++ ". " ++ format_value_with_unit v).data =
      p.data ++ '.' :: ' ' :: ((format_g v.value).data ++ ' ' :: v.unit.data) := by
  unfold format_value_with_unit
  simp [String.data_append, show (". " : String).data = ['.', ' '] from rfl,
    show (" " : String).data = [' '] from rfl, List.append_assoc]

theorem target_strip_fix (p : String) (v : ValueWithUnit)
    (hp_strip : pyStrip p = p) (hp_ne : p ≠ "")
    (hu_strip : pyStrip v.unit = v.unit) (hu_ne : v.unit ≠ "") :
    pyStrip (p ++ ". " ++ format_value_with_unit v) = p ++ ". " ++ format_value_with_unit v := by
  obtain ⟨c, r, hhead, hcws⟩ := strip_fix_head p hp_strip hp_ne
  obtain ⟨c', r', hlast, hcws'⟩ := strip_fix_last v.unit hu_strip hu_ne
  have hfront : ((p ++ ". " ++ format_value_with_unit v).data).dropWhile isPySpace =
      (p ++ ". " ++ format_value_with_unit v).data := by
    rw [target_data_shape, hhead, List.cons_append]
    exact dropWhile_cons_false _ _ _ hcws
  have hsplit : (p ++ ". " ++ format_value_with_unit v).data =
      (p.data ++ '.' :: ' ' :: ((format_g v.value).data ++ [' '])) ++ v.unit.data := by
    rw [target_data_shape]
    simp [List.append_assoc]
  have hback : ((p ++ ". " ++ format_value_with_unit v).data).reverse.dropWhile isPySpace =
      ((p ++ ". " ++ format_value_with_unit v).data).reverse := by
    rw [hsplit, List.reverse_append, hlast, List.cons_append]
    exact dropWhile_cons_false _ _ _ hcws'
  show (⟨stripList (p ++ ". " ++ format_value_with_unit v).data⟩ : String) = _
  rw [stripList_of_fixes _ hfront hback]

/-- C10 counterexample: forcing slot A on an option set that already has
another option labelled A is not idempotent: re-running the reconciler
on its own output with its returned label rewrites the second A-option
and reports changed again. -/
theorem C10_cex_not_idempotent :
    ensure_option_contains_answer ["B. 1 m", "A. 2 m"] (some "Z") ⟨5, "m"⟩ =
      (["A. 5 m", "A. 2 m"], "A", true) ∧
    ensure_option_contains_answer ["A. 5 m", "A. 2 m"] (some "A") ⟨5, "m"⟩ =
      (["A. 5 m", "A. 5 m"], "A", true) ∧
    (["A. 5 m", "A. 5 m"] : List String) ≠ ["A. 5 m", "A. 2 m"] := by
  refine ⟨by decide, by decide, by decide⟩

theorem reconcile_fun_key (p T y : String) (hTstrip : pyStrip T = T) :
    norm_label (if norm_label y = p then (if pyStrip y = T then y else T) else y) = p →
    pyStrip (if norm_label y = p then (if pyStrip y = T then y else T) else y) = T := by
  by_cases h1 : norm_label y = p
  · by_cases h2 : pyStrip y = T
    · rw [if_pos h1, if_pos h2]
      intro _
      exact h2
    · rw [if_pos h1, if_neg h2]
      intro _
      exact hTstrip
  · rw [if_neg h1]
    intro hx
    exact absurd hx h1

theorem reconcile_fun_stable (p T x : String)
    (hkey : norm_label x = p → pyStrip x = T) :
    (if norm_label x = p then (if pyStrip x = T then x else T) else x) = x := by
  by_cases h1 : norm_label x = p
  · rw [if_pos h1, if_pos (hkey h1)]
  · rw [if_neg h1]

theorem reconcile_flag_false (p T x : String)
    (hkey : norm_label x = p → pyStrip x = T) :
    (decide (norm_label x = p) && !(pyStrip x == T)) = false := by
  by_cases h1 : norm_label x = p
  · simp [h1, hkey h1]
  · simp [h1]

theorem reconcile_fun_label (p T y : String) (hTlabel : norm_label T = p)
    (hy : norm_label y = p) :
    norm_label (if norm_label y = p then (if pyStrip y = T then y else T) else y) = p := by
  rw [if_pos hy]
  by_cases h2 : pyStrip y = T
  · rw [if_pos h2]
    exact hy
  · rw [if_neg h2]
    exact hTlabel

set_option maxHeartbeats 1000000 in
/-- C10 amended: the Option Reconciler is idempotent on a non-empty
option list whenever the preferred label is non-empty, already
normalized (no surrounding whitespace, invariant under upper-casing),
contains no period, and occurs among the options' label prefixes, and
the value's unit is non-empty without surrounding whitespace: applying
the reconciler to its own output options with its returned label and the
same value returns the same options, the same label, and changed false.
Without these conditions idempotence fails, as the counterexample
shows. -/
theorem C10_reconciler_idem (options : List String) (p : String) (v : ValueWithUnit)
    (hne : options ≠ []) (hp_ne : p ≠ "")
    (hp_strip : pyStrip p = p) (hp_upper : pyUpper p = p)
    (hp_nodot : ∀ c ∈ p.data, ¬ c = '.')
    (hmatch : ∃ opt ∈ options, norm_label opt = p)
    (hu_strip : pyStrip v.unit = v.unit) (hu_ne : v.unit ≠ "") :
    ensure_option_contains_answer
        (ensure_option_contains_answer options (some p) v).1
        (some (ensure_option_contains_answer options (some p) v).2.1) v =
      ((ensure_option_contains_answer options (some p) v).1,
        (ensure_option_contains_answer options (some p) v).2.1, false) := by
  have hletter : reconcile_letter (some p) = p := by
    unfold reconcile_letter
    rw [pyOrStr_some_of_ne p "A" hp_ne, hp_strip, hp_upper]
  have htarget : reconcile_target (some p) v = p ++ ". " ++ format_value_with_unit v := by
    unfold reconcile_target
    rw [hletter]
  have hTstrip : pyStrip (p ++ ". " ++ format_value_with_unit v) =
      p ++ ". " ++ format_value_with_unit v :=
    target_strip_fix p v hp_strip hp_ne hu_strip hu_ne
  have hTlabel : norm_label (p ++ ". " ++ format_value_with_unit v) = p :=
    norm_label_target p (format_value_with_unit v) hp_nodot
      (congrArg String.data hp_strip) (congrArg String.data hp_upper)
  obtain ⟨opt0, hin0, heq0⟩ := hmatch
  have hm1 : (options.any fun opt => norm_label opt == reconcile_letter (some p)) = true :=
    List.any_eq_true.mpr ⟨opt0, hin0, by rw [hletter]; simpa using heq0⟩
  rw [ensure_matched options (some p) v hne hm1]
  dsimp only
  simp only [hletter, htarget]
  set T := p ++ ". " ++ format_value_with_unit v with hTdef
  set F := fun opt => if norm_label opt = p then (if pyStrip opt = T then opt else T) else opt
    with hFdef
  have hne2 : options.map F ≠ [] := by
    cases options with
    | nil => exact absurd rfl hne
    | cons a l => simp
  have hm2 : ((options.map F).any fun opt => norm_label opt == reconcile_letter (some p)) =
      true := by
    rw [hletter]
    apply List.any_eq_true.mpr
    refine ⟨F opt0, List.mem_map_of_mem _ hin0, ?_⟩
    have : norm_label (F opt0) = p := reconcile_fun_label p T opt0 hTlabel heq0
    simpa using this
  rw [ensure_matched (options.map F) (some p) v hne2 hm2]
  simp only [hletter, htarget]
  have hmm : (options.map F).map F = options.map F := by
    rw [List.map_map]
    apply List.map_congr_left
    intro y _
    show F (F y) = F y
    exact reconcile_fun_stable p T (F y) (reconcile_fun_key p T y hTstrip)
  have hflag : ((options.map F).any fun opt =>
      decide (norm_label opt = p) && !(pyStrip opt == T)) = false := by
    rw [List.any_eq_false]
    intro x hx
    obtain ⟨y, hy, rfl⟩ := List.mem_map.mp hx
    rw [reconcile_flag_false p T (F y) (reconcile_fun_key p T y hTstrip)]
    simp
  rw [hmm, hflag]

/-- C10 witness: a preferred label B that is present among the prefixes
of a two-option list, with value 11 m/s. -/
theorem C10_witness :
    ((["A. 10 m/s", "B. 11 m/s"] : List String) ≠ [] ∧ ("B" : String) ≠ "" ∧
      pyStrip "B" = "B" ∧ pyUpper "B" = "B" ∧ (∀ c ∈ ("B" : String).data, ¬ c = '.') ∧
      (∃ opt ∈ (["A. 10 m/s", "B. 11 m/s"] : List String), norm_label opt = "B") ∧
      pyStrip "m/s" = "m/s" ∧ ("m/s" : String) ≠ "") ∧
    ensure_option_contains_answer
        (ensure_option_contains_answer ["A. 10 m/s", "B. 11 m/s"] (some "B") ⟨11, "m/s"⟩).1
        (some (ensure_option_contains_answer ["A. 10 m/s", "B. 11 m/s"] (some "B")
          ⟨11, "m/s"⟩).2.1) ⟨11, "m/s"⟩ =
      ((ensure_option_contains_answer ["A. 10 m/s", "B. 11 m/s"] (some "B")
          ⟨11, "m/s"⟩).1,
        (ensure_option_contains_answer ["A. 10 m/s", "B. 11 m/s"] (some "B")
          ⟨11, "m/s"⟩).2.1, false) := by
  refine ⟨⟨by decide, by decide, by decide, by decide, by decide, by decide, by decide,
    by decide⟩, ?_⟩
  exact C10_reconciler_idem ["A. 10 m/s", "B. 11 m/s"] "B" ⟨11, "m/s"⟩ (by decide) (by decide)
    (by decide) (by decide) (by decide) (by decide) (by decide) (by decide)
